import Mathlib

set_option maxRecDepth 8000
set_option maxHeartbeats 1600000

/-!
Shallow embedding of the evacuation-resolution core of the WIDS repository.

Sources embedded here:
- src/wids-caregiver-alert/src/evacuation_routes.py
  (get_evacuation_direction, MAJOR_HIGHWAYS, find_nearest_highway,
   SAFE_ZONES, find_nearest_safe_zone, calculate_evacuation_plan);
- src/wids-caregiver-alert/src/evacuation_planner_page.py
  (_TAG_CATEGORY_MAP, STATIC_SHELTER_DB, SHELTER_CATEGORIES, _merge_shelters,
   and the route-fallback block of render_evacuation_planner_page);
- src/streamlit_run.py
  (fetch_recent, fetch_evac_zones_for_uids_with_fallback).

Modelling conventions: python floats are modelled as exact rationals; the
transcendental haversine distance and initial-bearing functions are abstracted
as parameters D and B of type Pt → Pt → ℚ, since every claim under scrutiny is
uniform in the metric; the float value inf is modelled as the top element of
WithTop ℚ; python dicts are association lists in insertion order; the external
stores (supabase tables, OSRM) are abstracted as function parameters.
-/

/-- Geographic point, a (latitude, longitude) pair of rationals. -/
abbrev Pt : Type := ℚ × ℚ

/-! ### GeoMath: evacuation direction (evacuation_routes.py lines 40-47) -/

/-- Python float modulus a % b for b > 0, on rationals. -/
def fmod (a b : ℚ) : ℚ := a - b * ⌊a / b⌋

/-- Python builtin round on rationals: round half to even, to an integer. -/
def roundHalfEven (q : ℚ) : ℤ :=
  if q - ⌊q⌋ < 1/2 then ⌊q⌋
  else if 1/2 < q - ⌊q⌋ then ⌊q⌋ + 1
  else if Even ⌊q⌋ then ⌊q⌋ else ⌊q⌋ + 1

/-- Compass labels, in the order of the source list named directions. -/
def compassDirections : List String :=
  ["North", "Northeast", "East", "Southeast", "South", "Southwest", "West", "Northwest"]

/-- Embedding of get_evacuation_direction.  The initial-bearing function
calculate_bearing is abstracted as the parameter B (it is transcendental);
the source computes the bearing fire → vulnerable, adds 180 degrees modulo
360, and indexes the 8 compass labels by round(bearing / 45) % 8. -/
def get_evacuation_direction (B : Pt → Pt → ℚ) (fire vuln : Pt) : String × ℚ :=
  let fire_bearing := B fire vuln
  let evacuation_bearing := fmod (fire_bearing + 180) 360
  let index : ℤ := roundHalfEven (evacuation_bearing / 45) % 8
  (compassDirections.getD index.toNat "", evacuation_bearing)

/-! ### HighwayIndex (evacuation_routes.py lines 51-102) -/

/-- One entry of the MAJOR_HIGHWAYS dict: key, display name, state codes,
and the ordered path sample points. -/
structure Highway where
  hid : String
  name : String
  states : List String
  coords : List Pt
deriving DecidableEq

/-- Embedding of the python guard state and state not in hwy states: a
highway is skipped iff a truthy (non-empty) state filter is given and the
state-set does not contain it. -/
def stateSkips (state : Option String) (states : List String) : Bool :=
  match state with
  | none => false
  | some s => if s = "" then false else if s ∈ states then false else true

/-- One step of the running-minimum scan in find_nearest_highway: replace the
best candidate exactly when the new distance is strictly smaller. -/
def hwyBest (D : Pt → Pt → ℚ) (origin : Pt) (acc : Option String × WithTop ℚ × Option Pt)
    (nm : String) (pt : Pt) : Option String × WithTop ℚ × Option Pt :=
  if (D origin pt : WithTop ℚ) < acc.2.1 then (some nm, (D origin pt : WithTop ℚ), some pt)
  else acc

/-- Embedding of find_nearest_highway: nested scan over highways (skipping
those excluded by the state filter) and their path vertices, keeping the
strictly closest vertex; starts from (None, inf, None). -/
def find_nearest_highway (D : Pt → Pt → ℚ) (hwys : List Highway) (origin : Pt)
    (state : Option String) : Option String × WithTop ℚ × Option Pt :=
  hwys.foldl (fun acc hwy =>
    if stateSkips state hwy.states then acc
    else hwy.coords.foldl (fun a pt => hwyBest D origin a hwy.name pt) acc)
    (none, (⊤ : WithTop ℚ), none)

/-! ### SafeZoneIndex (evacuation_routes.py lines 109-605) -/

/-- Candidate collection loop of find_nearest_safe_zone: zones at distance at
least excludeRadius from the origin, in registry insertion order, each paired
with its distance and coordinates. -/
def zoneCandidates (D : Pt → Pt → ℚ) (zones : List (String × Pt)) (origin : Pt)
    (excludeRadius : ℚ) : List (String × ℚ × Pt) :=
  zones.filterMap (fun z =>
    if excludeRadius ≤ D origin z.2 then some (z.1, D origin z.2, z.2) else none)

/-- Comparison key of the python sort: the distance component only. -/
def distLe (a b : String × ℚ × Pt) : Prop := a.2.1 ≤ b.2.1

instance : DecidableRel distLe := fun a b => inferInstanceAs (Decidable (a.2.1 ≤ b.2.1))

instance : IsTotal (String × ℚ × Pt) distLe := ⟨fun a b => le_total a.2.1 b.2.1⟩

instance : IsTrans (String × ℚ × Pt) distLe := ⟨fun _ _ _ h₁ h₂ => le_trans h₁ h₂⟩

/-- Core of find_nearest_safe_zone over an arbitrary zone registry: filter by
the exclusion radius, sort ascending by distance with a stable sort (python
list.sort is stable; insertionSort is the stable ascending sort), truncate to
topN. -/
def nearestZones (D : Pt → Pt → ℚ) (zones : List (String × Pt)) (origin : Pt)
    (excludeRadius : ℚ) (topN : ℕ) : List (String × ℚ × Pt) :=
  (List.insertionSort distLe (zoneCandidates D zones origin excludeRadius)).take topN

/-- Transcription of the MAJOR_HIGHWAYS dict of evacuation_routes.py, in
insertion order; coordinates exactly as in the source. -/
def MAJOR_HIGHWAYS : List Highway := [
  ⟨"I-5", "Interstate 5", ["CA", "OR", "WA"], [(32.5, -117.1), (34.0, -118.2), (37.8, -122.4), (45.5, -122.7), (47.6, -122.3)]⟩,
  ⟨"I-10", "Interstate 10", ["CA", "AZ", "NM", "TX"], [(34.0, -118.2), (33.4, -112.1), (31.8, -106.4), (29.4, -98.5)]⟩,
  ⟨"I-15", "Interstate 15", ["CA", "NV", "UT"], [(32.7, -117.2), (34.1, -117.3), (36.2, -115.1), (40.8, -111.9)]⟩,
  ⟨"I-40", "Interstate 40", ["CA", "AZ", "NM", "TX", "OK", "AR", "TN", "NC"], [(34.9, -114.6), (35.2, -111.7), (35.1, -106.6), (35.2, -97.5), (35.3, -92.3), (35.7, -84.6), (35.2, -79.8)]⟩,
  ⟨"I-80", "Interstate 80", ["CA", "NV", "UT", "WY", "NE", "IA", "IL", "IN", "OH", "PA", "NJ", "NY"], [(37.8, -122.3), (39.5, -119.8), (40.8, -111.9), (41.1, -104.8), (41.0, -99.5), (41.9, -87.6), (40.7, -85.9), (41.0, -81.5), (40.7, -74.0)]⟩,
  ⟨"I-95", "Interstate 95", ["FL", "GA", "SC", "NC", "VA", "MD", "DE", "PA", "NJ", "NY", "CT", "RI", "MA", "NH", "ME"], [(25.8, -80.2), (30.3, -81.7), (32.1, -81.1), (33.9, -78.9), (35.8, -78.6), (36.9, -76.3), (38.9, -77.0), (40.7, -74.0), (42.4, -71.1), (43.4, -69.8)]⟩,
  ⟨"I-85", "Interstate 85", ["AL", "GA", "SC", "NC", "VA"], [(32.4, -85.5), (33.7, -84.4), (34.9, -82.4), (35.7, -80.8), (36.9, -79.8)]⟩,
  ⟨"I-75", "Interstate 75", ["FL", "GA", "TN", "KY", "OH", "MI"], [(25.8, -80.2), (33.7, -84.4), (36.2, -86.8), (39.1, -84.5), (41.5, -83.5), (42.3, -83.0)]⟩,
  ⟨"I-65", "Interstate 65", ["AL", "TN", "KY", "IN"], [(32.3, -86.9), (36.2, -86.8), (38.2, -85.8), (39.8, -86.2)]⟩,
  ⟨"I-35", "Interstate 35", ["TX", "OK", "KS", "MO", "IA", "MN"], [(28.5, -97.8), (35.5, -97.5), (37.7, -97.3), (39.1, -94.6), (41.9, -93.6), (44.9, -93.2)]⟩,
  ⟨"I-90", "Interstate 90", ["WA", "ID", "MT", "WY", "SD", "MN", "WI", "IL", "IN", "OH", "PA", "NY", "MA"], [(47.6, -122.3), (46.5, -117.0), (46.8, -110.4), (44.3, -104.8), (44.1, -100.2), (43.9, -94.8), (43.0, -89.4), (41.9, -87.6), (41.5, -81.5), (42.3, -71.1)]⟩,
  ⟨"I-20", "Interstate 20", ["TX", "LA", "MS", "AL", "GA", "SC"], [(32.8, -96.8), (31.3, -93.6), (32.3, -90.1), (32.4, -87.3), (33.7, -84.4), (34.0, -81.0)]⟩
]

/-- Transcription of the SAFE_ZONES dict of evacuation_routes.py, in insertion
order; all 343 named zones with coordinates exactly as in the source. -/
def SAFE_ZONES : List (String × Pt) := [
  ("Los Angeles", 34.0522, -118.2437),
  ("San Francisco", 37.7749, -122.4194),
  ("San Diego", 32.7157, -117.1611),
  ("San Jose", 37.3382, -121.8863),
  ("Sacramento", 38.5816, -121.4944),
  ("Fresno", 36.7378, -119.7871),
  ("Long Beach", 33.7701, -118.1937),
  ("Oakland", 37.8044, -122.2711),
  ("Bakersfield", 35.3733, -119.0019),
  ("Stockton", 37.9577, -121.4908),
  ("Santa Barbara", 34.4251, -119.8548),
  ("Modesto", 37.3382, -120.4194),
  ("Portland", 45.5152, -122.6784),
  ("Eugene", 44.0521, -123.0862),
  ("Salem", 44.9429, -123.0351),
  ("Bend", 44.0582, -121.3093),
  ("Medford", 42.8365, -122.8544),
  ("Seattle", 47.6062, -122.3321),
  ("Spokane", 47.6588, -117.4260),
  ("Tacoma", 47.2529, -122.4443),
  ("Olympia", 47.0379, -122.9007),
  ("Bellingham", 48.7569, -122.6443),
  ("Tri-Cities WA", 46.2626, -119.0794),
  ("Phoenix", 33.4484, -112.0740),
  ("Tucson", 32.2226, -110.9747),
  ("Mesa", 33.2148, -111.8315),
  ("Flagstaff", 35.1983, -111.6513),
  ("Yuma", 32.7228, -111.4546),
  ("Las Vegas", 36.1699, -115.1398),
  ("Reno", 39.5296, -119.8138),
  ("Henderson", 36.0397, -114.9842),
  ("Carson City", 39.1638, -119.7674),
  ("Salt Lake City", 40.7608, -111.8910),
  ("Provo", 40.2332, -111.7019),
  ("Orem", 40.2969, -111.6991),
  ("Ogden", 41.0833, -111.8712),
  ("St George UT", 37.2982, -113.3054),
  ("Boise", 43.6150, -116.2023),
  ("Nampa", 43.5115, -116.5630),
  ("Idaho Falls", 43.4774, -112.0408),
  ("Pocatello", 42.8713, -112.4485),
  ("Coeur d Alene", 47.6769, -116.7800),
  ("Twin Falls", 42.5630, -114.4605),
  ("Billings", 45.7833, -108.5007),
  ("Missoula", 46.8797, -114.0240),
  ("Great Falls", 47.4942, -111.2833),
  ("Bozeman", 45.6794, -111.0394),
  ("Butte", 45.9649, -112.5301),
  ("Helena", 46.5891, -112.0391),
  ("Kalispell", 48.2966, -114.3145),
  ("Cheyenne", 41.1400, -104.8202),
  ("Casper", 42.8420, -106.2468),
  ("Laramie", 41.0934, -104.8210),
  ("Gillette", 44.2699, -104.8363),
  ("Rock Springs", 41.5905, -109.2280),
  ("Denver", 39.7392, -104.9903),
  ("Colorado Springs", 38.8561, -104.8408),
  ("Aurora", 39.5294, -104.8318),
  ("Fort Collins", 40.5853, -105.0844),
  ("Boulder", 40.0150, -105.2705),
  ("Pueblo", 38.0838, -103.5428),
  ("Grand Junction", 39.0639, -108.5506),
  ("Durango", 37.2750, -107.8383),
  ("Albuquerque", 35.0844, -106.6504),
  ("Las Cruces", 32.3176, -106.7914),
  ("Rio Rancho", 35.2870, -106.9647),
  ("Santa Fe", 35.6870, -105.9378),
  ("Roswell", 33.2476, -104.5319),
  ("Farmington NM", 36.7781, -108.7376),
  ("El Paso", 31.7619, -106.4850),
  ("Houston", 29.7604, -95.3698),
  ("San Antonio", 29.4241, -98.4936),
  ("Dallas", 32.7767, -96.7970),
  ("Fort Worth", 32.7555, -97.3308),
  ("Austin", 30.2672, -97.7431),
  ("Corpus Christi", 27.8006, -97.3964),
  ("Arlington TX", 32.7366, -97.0945),
  ("Lubbock", 33.5442, -101.9423),
  ("Amarillo", 35.2225, -101.7948),
  ("Midland", 31.9960, -102.0976),
  ("McAllen", 26.2034, -98.2334),
  ("Brownsville", 25.8602, -97.4936),
  ("Waco", 31.5493, -97.1467),
  ("Tyler", 32.3513, -95.2785),
  ("Beaumont", 30.0861, -94.1038),
  ("Sherman TX", 33.5966, -96.8985),
  ("Oklahoma City", 35.4676, -97.5164),
  ("Tulsa", 36.1539, -95.9928),
  ("Norman OK", 35.2225, -97.4378),
  ("Lawton", 34.5961, -98.4900),
  ("Enid", 36.3956, -97.7876),
  ("Wichita", 37.6872, -97.4398),
  ("Kansas City KS", 39.0978, -94.5786),
  ("Overland Park", 38.9146, -94.6868),
  ("Topeka", 39.0473, -95.6752),
  ("Dodge City", 37.7560, -100.3781),
  ("Manhattan KS", 39.1837, -96.6499),
  ("Omaha", 41.2451, -95.9358),
  ("Lincoln NE", 40.8136, -96.7026),
  ("Grand Island", 40.9264, -98.3420),
  ("Kearney", 40.6994, -99.0818),
  ("North Platte", 41.1380, -100.7654),
  ("Scottsbluff", 41.8753, -103.9127),
  ("Sioux Falls", 43.5460, -96.7311),
  ("Rapid City", 44.0738, -103.0384),
  ("Pierre", 44.3668, -100.3538),
  ("Aberdeen SD", 44.3683, -98.4940),
  ("Mitchell", 43.6047, -98.3156),
  ("Fargo", 46.8797, -96.7026),
  ("Bismarck", 46.8083, -100.7837),
  ("Grand Forks", 47.9971, -97.1536),
  ("Minot", 48.2296, -101.2943),
  ("Williston", 48.1582, -103.7369),
  ("Minneapolis", 44.9778, -93.2650),
  ("St Paul", 44.9537, -93.0900),
  ("Duluth", 46.8408, -92.1219),
  ("Rochester MN", 43.6946, -92.2963),
  ("St Cloud", 45.5588, -94.3036),
  ("Mankato", 44.1636, -94.0816),
  ("Bemidji", 47.5550, -94.3789),
  ("Des Moines", 41.5868, -93.6250),
  ("Cedar Rapids", 41.8781, -91.6460),
  ("Davenport", 41.6005, -90.5787),
  ("Iowa City", 41.6408, -91.5335),
  ("Sioux City", 42.4963, -96.0425),
  ("Ames", 42.0347, -93.6088),
  ("Waterloo", 42.4774, -92.3310),
  ("St Louis", 38.6270, -90.1994),
  ("Kansas City", 39.0997, -94.5786),
  ("Springfield MO", 37.2080, -93.2969),
  ("Columbia MO", 38.8517, -92.3276),
  ("Jefferson City", 38.5767, -92.1736),
  ("Joplin", 37.0842, -94.5132),
  ("St Joseph", 39.7675, -94.8467),
  ("Little Rock", 34.7465, -92.2896),
  ("Fort Smith", 35.3322, -94.2688),
  ("Fayetteville AR", 36.0627, -94.1571),
  ("Jonesboro", 34.8253, -90.0198),
  ("Bentonville", 36.3748, -94.2088),
  ("New Orleans", 29.9511, -90.0715),
  ("Baton Rouge", 30.4515, -91.1874),
  ("Shreveport", 32.5254, -93.7502),
  ("Lafayette LA", 30.2127, -92.0193),
  ("Lake Charles", 30.1864, -93.2508),
  ("Monroe LA", 32.5354, -92.0198),
  ("Jackson MS", 32.2988, -90.1848),
  ("Gulfport", 30.4671, -89.5301),
  ("Hattiesburg", 31.3043, -89.3342),
  ("Meridian MS", 32.3425, -88.7037),
  ("Southaven", 35.0753, -90.0151),
  ("Birmingham", 33.5206, -86.8024),
  ("Mobile", 30.6943, -88.0445),
  ("Huntsville", 34.7304, -86.8801),
  ("Montgomery", 32.3617, -86.2792),
  ("Tuscaloosa", 33.2096, -87.5369),
  ("Decatur AL", 34.5901, -86.9836),
  ("Nashville", 36.1627, -86.7816),
  ("Memphis", 35.1495, -90.0490),
  ("Knoxville", 35.9606, -83.9207),
  ("Chattanooga", 35.0456, -85.3101),
  ("Clarksville", 36.5396, -87.3511),
  ("Johnson City", 36.3229, -82.3535),
  ("Murfreesboro", 35.8462, -86.3951),
  ("Louisville", 38.2527, -85.7585),
  ("Lexington", 38.0406, -84.5096),
  ("Bowling Green", 36.9684, -86.7828),
  ("Owensboro", 37.7731, -87.1692),
  ("Covington KY", 39.0837, -84.5088),
  ("Paducah", 36.8401, -88.7598),
  ("Charleston WV", 38.3498, -81.6326),
  ("Huntington WV", 38.4204, -82.4446),
  ("Morgantown", 39.6299, -79.9553),
  ("Parkersburg", 39.2678, -81.5538),
  ("Richmond", 37.5407, -77.4360),
  ("Norfolk", 36.8508, -76.0121),
  ("Virginia Beach", 36.8529, -75.9780),
  ("Roanoke", 37.2750, -79.9419),
  ("Charlottesville", 38.0216, -78.4774),
  ("Charlotte", 35.2271, -80.8431),
  ("Raleigh", 35.7796, -78.6382),
  ("Durham", 35.9132, -78.8753),
  ("Greensboro", 36.0456, -79.7930),
  ("Winston-Salem", 36.1074, -80.2507),
  ("Asheville", 35.5675, -82.5514),
  ("Wilmington NC", 34.2241, -77.9456),
  ("Fayetteville NC", 35.0527, -78.8784),
  ("High Point", 36.0117, -79.9951),
  ("Charleston SC", 32.7767, -79.9310),
  ("Greenville SC", 34.8517, -82.3941),
  ("Columbia SC", 34.0007, -81.0348),
  ("Myrtle Beach", 33.6946, -78.8890),
  ("Spartanburg", 34.2959, -81.9455),
  ("Atlanta", 33.7490, -84.3880),
  ("Savannah", 32.0809, -81.0742),
  ("Augusta GA", 33.4484, -81.9807),
  ("Columbus GA", 32.5085, -84.8748),
  ("Macon", 32.5416, -83.6077),
  ("Albany GA", 31.5392, -84.1441),
  ("Miami", 25.7617, -80.1918),
  ("Tampa", 27.9506, -82.4572),
  ("Orlando", 28.5383, -81.3792),
  ("Jacksonville", 30.3322, -81.6557),
  ("Fort Lauderdale", 26.1287, -80.1342),
  ("St Petersburg FL", 27.7676, -82.6403),
  ("Hialeah", 25.8617, -80.2783),
  ("Tallahassee", 30.4383, -84.2807),
  ("Pensacola", 30.4738, -87.2509),
  ("Panama City FL", 30.1686, -85.6808),
  ("Naples", 26.1420, -81.7948),
  ("Key West", 24.5551, -81.7874),
  ("Baltimore", 39.2904, -76.6122),
  ("Rockville", 39.0837, -77.1541),
  ("Frederick MD", 39.4199, -77.2922),
  ("Annapolis", 38.9072, -76.4977),
  ("Cumberland MD", 39.6393, -78.7445),
  ("Wilmington DE", 39.7392, -75.5244),
  ("Dover DE", 38.9180, -75.5244),
  ("Newark DE", 39.6837, -75.7568),
  ("Philadelphia", 39.9526, -75.1652),
  ("Pittsburgh", 40.4406, -79.9959),
  ("Harrisburg", 40.2732, -76.8867),
  ("Allentown", 40.6084, -75.4903),
  ("Erie PA", 42.1266, -79.9578),
  ("Reading PA", 40.3365, -75.9474),
  ("Scranton", 41.4042, -75.6624),
  ("Lancaster PA", 40.0379, -76.1968),
  ("York PA", 39.9626, -76.9309),
  ("Newark NJ", 40.7357, -74.1724),
  ("Jersey City", 40.7178, -74.0431),
  ("Paterson", 40.9168, -74.1718),
  ("Elizabeth NJ", 40.6637, -74.2104),
  ("Trenton", 40.2206, -74.7597),
  ("Atlantic City", 39.3643, -74.4229),
  ("Morristown NJ", 40.7984, -74.4977),
  ("Washington DC", 38.9072, -77.0369),
  ("New York", 40.7128, -74.0060),
  ("Buffalo", 42.8864, -78.8784),
  ("Albany", 42.6526, -73.7562),
  ("Syracuse", 42.8554, -76.0378),
  ("Rochester NY", 43.1609, -77.6107),
  ("Yonkers", 40.9312, -73.8988),
  ("New Rochelle", 40.9090, -73.8046),
  ("Utica", 43.2609, -75.2955),
  ("Ithaca", 42.4430, -76.4969),
  ("Hartford", 41.7658, -72.6734),
  ("New Haven", 41.3081, -72.9246),
  ("Bridgeport", 41.1853, -73.0244),
  ("Stamford CT", 41.0534, -73.5387),
  ("Waterbury", 41.4845, -73.0351),
  ("Providence", 41.8240, -71.4128),
  ("Cranston", 41.7798, -71.4385),
  ("Warwick", 41.7365, -71.4165),
  ("Boston", 42.3601, -71.0589),
  ("Springfield MA", 42.0809, -72.5763),
  ("Worcester", 42.2626, -71.8044),
  ("Cambridge MA", 42.3736, -71.1182),
  ("Lowell", 42.6334, -71.3081),
  ("New Bedford", 41.6360, -70.9440),
  ("Brockton", 42.0817, -71.0389),
  ("Burlington VT", 44.4759, -73.2096),
  ("Montpelier", 44.2601, -72.5754),
  ("Rutland VT", 43.6074, -72.9635),
  ("St Johnsbury", 43.6843, -72.0131),
  ("Manchester NH", 42.9956, -71.5376),
  ("Nashua", 42.7870, -71.5401),
  ("Concord NH", 43.2081, -71.5376),
  ("Portsmouth NH", 43.0797, -70.7593),
  ("Claremont NH", 43.3780, -72.3378),
  ("Portland ME", 43.6615, -70.2558),
  ("Augusta ME", 44.3106, -69.7795),
  ("Bangor ME", 44.4894, -68.5765),
  ("Lewiston ME", 44.1006, -70.2641),
  ("Presque Isle", 46.6778, -68.0000),
  ("Chicago", 41.8781, -87.6298),
  ("Aurora IL", 41.2577, -88.0844),
  ("Rockford", 41.2687, -89.9840),
  ("Joliet", 41.5297, -88.0856),
  ("Springfield IL", 39.7817, -89.6501),
  ("Peoria IL", 40.6984, -89.5786),
  ("Champaign", 40.1247, -88.2437),
  ("Decatur IL", 39.8253, -88.8408),
  ("Indianapolis", 39.7684, -86.1581),
  ("Fort Wayne", 41.0788, -85.1394),
  ("Evansville", 37.8753, -87.5311),
  ("South Bend", 41.6764, -86.2520),
  ("Gary", 41.5834, -87.3314),
  ("Bloomington IN", 39.1657, -86.1581),
  ("Muncie", 40.1967, -85.3924),
  ("Kokomo", 40.4774, -85.8208),
  ("Lafayette IN", 40.4215, -86.9081),
  ("Richmond IN", 39.8337, -84.2947),
  ("Terre Haute", 39.4685, -87.4119),
  ("Columbus OH", 39.9612, -82.9988),
  ("Cleveland", 41.4993, -81.6944),
  ("Cincinnati", 39.1031, -84.5120),
  ("Toledo OH", 41.6567, -83.5367),
  ("Akron", 41.0810, -81.5190),
  ("Dayton", 39.7684, -84.1590),
  ("Youngstown", 41.0996, -80.6483),
  ("Canton OH", 40.8025, -81.4175),
  ("Detroit", 42.3314, -83.0458),
  ("Grand Rapids", 42.9634, -85.6681),
  ("Warren MI", 42.6314, -83.0458),
  ("Sterling Heights", 42.5809, -83.0311),
  ("Lansing", 42.7325, -84.5555),
  ("Ann Arbor", 42.2808, -83.0442),
  ("Flint", 42.9675, -83.7282),
  ("Dearborn", 42.3314, -83.2603),
  ("Marquette MI", 46.5563, -84.5777),
  ("Traverse City", 44.7338, -85.6780),
  ("Kalamazoo", 42.2745, -85.5585),
  ("Battle Creek", 42.3314, -85.2500),
  ("Saginaw", 43.4195, -83.9494),
  ("Milwaukee", 43.0389, -87.9065),
  ("Madison WI", 43.0731, -89.4012),
  ("Green Bay", 44.5115, -88.0296),
  ("Kenosha", 42.5847, -87.8212),
  ("Racine", 42.7261, -87.7896),
  ("Appleton", 44.2601, -88.4113),
  ("Waukesha", 42.9964, -88.2319),
  ("Oshkosh WI", 44.0247, -88.5427),
  ("La Crosse", 43.8074, -91.2396),
  ("Superior WI", 46.6808, -92.1043),
  ("Anchorage", 61.2181, -149.9003),
  ("Fairbanks", 64.8378, -147.7164),
  ("Juneau", 58.3005, -134.4197),
  ("Ketchikan", 55.3477, -131.6609),
  ("Kodiak", 57.7956, -152.4093),
  ("Honolulu", 21.3069, -157.8583),
  ("Hilo HI", 19.5445, -155.0099),
  ("Kailua-Kona", 19.6404, -155.9737),
  ("Maui", 20.7984, -156.3319),
  ("San Juan PR", 18.4655, -66.1057),
  ("Bayamon PR", 18.3987, -66.1603),
  ("Carolina PR", 18.3801, -65.9757),
  ("Ponce PR", 18.4766, -66.5723),
  ("Mayaguez PR", 18.1003, -66.9754),
  ("Caguas PR", 18.2419, -66.0385),
  ("St Thomas USVI", 18.3430, -64.9336),
  ("St Croix USVI", 17.7488, -64.7332),
  ("Hagatna Guam", 13.4563, 144.7494),
  ("Pago Pago AS", -14.2681, -170.6934),
  ("Saipan CNMI", 15.2069, 145.7613)
]

/-- Embedding of find_nearest_safe_zone: the nearest-zone search specialised
to the SAFE_ZONES registry, with the source defaults exclude_radius_km = 100
and top_n = 5 supplied by callers. -/
def find_nearest_safe_zone (D : Pt → Pt → ℚ) (origin : Pt) (excludeRadius : ℚ)
    (topN : ℕ) : List (String × ℚ × Pt) :=
  nearestZones D SAFE_ZONES origin excludeRadius topN

/-! ### EvacuationPlanner (evacuation_routes.py lines 609-653) -/

/-- Fixed km → miles conversion factor of the source. -/
def MILE_FACTOR : ℚ := 0.621371

/-- Python truthiness of an optional string: None and the empty string are
falsy. -/
def pyTruthyStr (o : Option String) : Bool :=
  match o with
  | none => false
  | some s => s ≠ ""

/-- Result record of calculate_evacuation_plan, one field per key of the
returned dict.  Distances that can be the float inf are WithTop ℚ; keys whose
value can be None are Option. -/
structure EvacPlan where
  evacuation_direction : String
  evacuation_bearing : ℚ
  fire_name : String
  fire_distance_km : ℚ
  fire_distance_mi : ℚ
  nearest_highway : String
  highway_distance_km : Option (WithTop ℚ)
  highway_distance_mi : Option (WithTop ℚ)
  safe_zone : String
  safe_zone_distance_km : Option ℚ
  safe_zone_distance_mi : Option ℚ
  safe_zone_alternatives : List (String × ℚ × Pt)
  total_distance_km : WithTop ℚ
  total_distance_mi : WithTop ℚ
  urgency : String

/-- Embedding of calculate_evacuation_plan.  D abstracts haversine_distance
(km) and B abstracts calculate_bearing; the registries are the transcribed
constants.  Python truthiness tests (highway, safe_zone_dist, tuples) are
modelled exactly, including the quirk that a 0.0 safe-zone distance is falsy. -/
def calculate_evacuation_plan (D B : Pt → Pt → ℚ) (vuln fire : Pt)
    (fireName : String) (state : Option String) : EvacPlan :=
  let fire_dist := D vuln fire
  let ed := get_evacuation_direction B fire vuln
  let hw := find_nearest_highway D MAJOR_HIGHWAYS vuln state
  let highway := hw.1
  let highway_dist := hw.2.1
  let highway_point := hw.2.2
  let zone_list := find_nearest_safe_zone D vuln 100 5
  let safe_zone : Option String :=
    match zone_list with
    | z :: _ => some z.1
    | [] => none
  let safe_zone_dist : Option ℚ :=
    match zone_list with
    | z :: _ => some z.2.1
    | [] => none
  let safe_zone_coords : Option Pt :=
    match zone_list with
    | z :: _ => some z.2.2
    | [] => none
  let szd_or_zero : ℚ :=
    match safe_zone_dist with
    | some dd => if dd = 0 then 0 else dd
    | none => 0
  let total_dist : WithTop ℚ :=
    match highway_point, safe_zone_coords with
    | some hp, some zc => highway_dist + (D hp zc : WithTop ℚ)
    | _, _ => (szd_or_zero : WithTop ℚ)
  { evacuation_direction := ed.1
    evacuation_bearing := ed.2
    fire_name := fireName
    fire_distance_km := fire_dist
    fire_distance_mi := fire_dist * MILE_FACTOR
    nearest_highway := if pyTruthyStr highway then highway.getD "" else "No major highway nearby"
    highway_distance_km := if pyTruthyStr highway then some highway_dist else none
    highway_distance_mi :=
      if pyTruthyStr highway then some (highway_dist.map (fun q => q * MILE_FACTOR)) else none
    safe_zone := if pyTruthyStr safe_zone then safe_zone.getD "" else "Consult local authorities"
    safe_zone_distance_km := safe_zone_dist
    safe_zone_distance_mi :=
      match safe_zone_dist with
      | some dd => if dd = 0 then none else some (dd * MILE_FACTOR)
      | none => none
    safe_zone_alternatives := zone_list.tail
    total_distance_km := total_dist
    total_distance_mi := total_dist.map (fun q => q * MILE_FACTOR)
    urgency := if fire_dist < 15 then "HIGH" else if fire_dist < 40 then "MEDIUM" else "LOW" }

/-! ### ShelterAggregator (evacuation_planner_page.py lines 200-400) -/

/-- Normalised shelter record, one field per key that the page code reads or
writes on a shelter dict.  The category key may be absent on a raw input
record, hence Option. -/
structure ShelterRec where
  name : String
  lat : ℚ
  lon : ℚ
  category : Option String
  phone : Option String
  ada : Bool
  note : Option String
  website : Option String
  source : Option String
deriving DecidableEq

/-- One row of the curated STATIC_SHELTER_DB table. -/
structure StaticEntry where
  name : String
  address : String
  latOffset : ℚ
  lonOffset : ℚ
  phone : String
  ada : Bool
  note : String
deriving DecidableEq

/-- Association-list lookup, python dict.get on a dict in insertion order. -/
def alGet {β : Type} : List (String × β) → String → Option β
  | [], _ => none
  | kv :: rest, k => if kv.1 = k then some kv.2 else alGet rest k

/-- Python merged.setdefault(k, []).append(v): append to the list at an
existing key, or add the key at the end of the dict with the one-element
list. -/
def dictAppend {β : Type} : List (String × List β) → String → β → List (String × List β)
  | [], k, v => [(k, [v])]
  | kv :: rest, k, v =>
      if kv.1 = k then (kv.1, kv.2 ++ [v]) :: rest else kv :: dictAppend rest k v

/-- Transcription of _TAG_CATEGORY_MAP, in insertion order. -/
def TAG_CATEGORY_MAP : List (String × String) := [
  ("dv_shelter", "Women / Domestic-Violence"),
  ("elderly_care", "Elderly"),
  ("disabled", "Disabled / ADA"),
  ("mental_health", "Mental Health"),
  ("housing_emergency", "General Emergency"),
  ("food_bank", "Food / Supply Distribution"),
  ("group_home", "Group Home"),
  ("shelter", "General"),
  ("social_centre", "Social Centre"),
  ("hospital", "Hospital / Medical"),
  ("veterinary", "Pet-Friendly (Veterinary)")
]

/-- Python a or b on an optional string and a default: the default wins when
a is None or empty. -/
def orTruthy (a : Option String) (b : String) : String :=
  match a with
  | some s => if s = "" then b else s
  | none => b

/-- Category resolution of fetch_overpass_shelters: first match on the
social_facility tag, else the amenity tag, else the default General. -/
def resolveCategory (sf amenity : String) : String :=
  orTruthy (alGet TAG_CATEGORY_MAP sf) (orTruthy (alGet TAG_CATEGORY_MAP amenity) "General")

/-- All shelter categories of the page, in display order. -/
def SHELTER_CATEGORIES : List String := [
  "General",
  "Women / Domestic-Violence",
  "Elderly",
  "Disabled / ADA",
  "Mental Health",
  "Veterans",
  "Families w/ Children",
  "Pet-Friendly",
  "Hospital / Medical"
]

/-- Transcription of the curated STATIC_SHELTER_DB table, in insertion order,
with every string exactly as in the source.  Note that it has entries for
eight of the nine SHELTER_CATEGORIES: there is no curated entry for the
category Hospital / Medical. -/
def STATIC_SHELTER_DB : List (String × List StaticEntry) := [
  ("General", [
    ⟨"Red Cross Shelter (local chapter)", "Contact local Red Cross — 1-800-RED-CROSS", 0, 0, "1-800-733-2767", true, "Red Cross operates temporary shelters within 24 h of a declared emergency.  Call to confirm nearest open location."⟩,
    ⟨"FEMA / County Emergency Shelter", "Contact county emergency management or dial 211", 0, 0, "211", true, "County-run shelters open automatically when an evacuation order is issued.  211 connects to local emergency services nationwide."⟩
  ]),
  ("Women / Domestic-Violence", [
    ⟨"National DV Hotline — Shelter Referral", "Referral only — call or text for nearest shelter", 0, 0, "1-800-799-7233", true, "The National Domestic Violence Hotline can connect you to the nearest safe, confidential shelter.  Text START to 88788."⟩
  ]),
  ("Elderly", [
    ⟨"Area Agency on Aging — Emergency Placement", "Contact your local AAA for nearest elder shelter", 0, 0, "eldercare.acl.gov — 1-800-677-1116", true, "The Eldercare Locator (federal) links to local Area Agencies on Aging who coordinate emergency placement for seniors."⟩
  ]),
  ("Disabled / ADA", [
    ⟨"ADA / Disability-Specific Shelter Referral", "Contact local emergency management", 0, 0, "211", true, "Most county emergency shelters are ADA-compliant.  Call 211 and specify mobility / accessibility needs — they can match you to the right facility."⟩
  ]),
  ("Mental Health", [
    ⟨"988 Suicide & Crisis Lifeline — Shelter Referral", "Call or text 988 for crisis support + shelter help", 0, 0, "988", true, "988 counsellors can arrange crisis-safe shelter placement and coordinate with local mental-health agencies during emergencies."⟩
  ]),
  ("Veterans", [
    ⟨"VA Emergency / Homeless Veteran Services", "Contact nearest VA Medical Center", 0, 0, "1-800-273-8255 (Veterans Crisis Line)", true, "The VA operates emergency shelters for veterans through its Homeless Veteran programmes.  The Veterans Crisis Line also helps locate shelter."⟩
  ]),
  ("Families w/ Children", [
    ⟨"211 Family-Shelter Referral", "Dial 211 and request family shelter", 0, 0, "211", true, "Many emergency shelters have dedicated family wings with cots, meals, and childcare.  211 can confirm which facilities are open and have family capacity."⟩
  ]),
  ("Pet-Friendly", [
    ⟨"ASPCA / Local Animal Rescue — Pet-Friendly Shelter Info", "Contact local animal rescue or dial 211", 0, 0, "211", false, "Not all emergency shelters accept pets.  211 and local animal rescues maintain up-to-date lists of pet-friendly evacuation sites.  Bring carriers, food, and records."⟩
  ])
]

/-- Category under which _merge_shelters files a live record:
s.get("category", "General"). -/
def catOf (s : ShelterRec) : String := s.category.getD "General"

/-- Conversion of a curated table row into the dict that _merge_shelters
appends for a still-empty category: the point is the destination plus the
configured offset, and the record is tagged with source Curated. -/
def staticToRec (cat : String) (destLat destLon : ℚ) (e : StaticEntry) : ShelterRec :=
  { name := e.name
    lat := destLat + e.latOffset
    lon := destLon + e.lonOffset
    category := some cat
    phone := some e.phone
    ada := e.ada
    note := some e.note
    website := none
    source := some "Curated" }

/-- Embedding of _merge_shelters: initialise every known category to the
empty list, file each live record under its category (creating unknown
categories at the end of the dict), then, for every category of the curated
table whose list is still falsy (absent or empty), append the converted
curated entries. -/
def mergeShelters (live : List ShelterRec) (destLat destLon : ℚ) :
    List (String × List ShelterRec) :=
  let merged := SHELTER_CATEGORIES.map (fun cat => (cat, ([] : List ShelterRec)))
  let merged := live.foldl (fun m s => dictAppend m (catOf s) s) merged
  STATIC_SHELTER_DB.foldl (fun m p =>
    if (alGet m p.1).getD [] = [] then
      p.2.foldl (fun m2 e => dictAppend m2 p.1 (staticToRec p.1 destLat destLon e)) m
    else m) merged

/-! ### ResilientFetcher (streamlit_run.py lines 54-143) -/

/-- Error raised by the abstract store, carrying the examined message text
(python reads getattr(e, "message", "") or str(e)). -/
structure APIError where
  message : String
deriving DecidableEq

/-- Failure surfaced by the chunked fetch: either a store APIError re-raised,
or the final RuntimeError of the unreachable no-attempt branch. -/
inductive FetchFailure where
  | api (e : APIError)
  | runtime (msg : String)
deriving DecidableEq

instance {ε α : Type} [DecidableEq ε] [DecidableEq α] : DecidableEq (Except ε α) := fun a b =>
  match a, b with
  | .ok x, .ok y =>
      if h : x = y then .isTrue (by rw [h]) else .isFalse (by simp [h])
  | .ok _, .error _ => .isFalse (by simp)
  | .error _, .ok _ => .isFalse (by simp)
  | .error e, .error f =>
      if h : e = f then .isTrue (by rw [h]) else .isFalse (by simp [h])

/-- Character-list prefix test, first argument the pattern. -/
def listStartsWith : List Char → List Char → Bool
  | [], _ => true
  | _ :: _, [] => false
  | a :: as, b :: bs => a = b && listStartsWith as bs

/-- Character-list infix test, first argument the pattern. -/
def listHasInfix (needle : List Char) : List Char → Bool
  | [] => needle = []
  | c :: rest => listStartsWith needle (c :: rest) || listHasInfix needle rest

/-- Python substring containment needle in hay. -/
def strContainsSub (needle hay : String) : Bool :=
  listHasInfix needle.toList hay.toList

/-- The one transient-timeout signal the chunked fetch recognises:
"57014" in msg or "statement timeout" in msg. -/
def isTransientTimeout (e : APIError) : Bool :=
  strContainsSub "57014" e.message || strContainsSub "statement timeout" e.message

/-- Batch start offsets of python range(0, len, chunk) for chunk > 0. -/
def batchStarts (len chunk : ℕ) : List ℕ :=
  List.range' 0 ((len + chunk - 1) / chunk) chunk

/-- One full chunked attempt of fetch_evac_zones_for_uids_with_fallback at a
fixed chunk size: issue one request per batch uids[i : i+chunk] in order,
concatenating rows, stopping at the first error. -/
def attemptFetch {ρ : Type} (request : List String → Except APIError (List ρ))
    (uids : List String) (chunk : ℕ) : Except APIError (List ρ) :=
  (batchStarts uids.length chunk).foldlM
    (fun acc i => Except.map (fun rs => acc ++ rs) (request ((uids.drop i).take chunk)))
    []

/-- The for chunk in chunk_sizes loop of fetch_evac_zones_for_uids_with_fallback,
threading the last stored error: a successful attempt returns its rows; a
failure recognised as the transient-timeout signal moves to the next chunk
size; any other failure is re-raised at once; an exhausted ladder raises the
last stored error (or the RuntimeError when no error was stored). -/
def fallbackLoop {ρ : Type} (request : List String → Except APIError (List ρ))
    (uids : List String) : List ℕ → Option APIError → Except FetchFailure (List ρ)
  | [], none => .error (.runtime "Failed to fetch evac zones (unknown error).")
  | [], some e => .error (.api e)
  | c :: rest, _ =>
      match attemptFetch request uids c with
      | .ok rows => .ok rows
      | .error e =>
          if isTransientTimeout e then fallbackLoop request uids rest (some e)
          else .error (.api e)

/-- Pandas-style first-occurrence deduplication used by the uid preprocessing,
written with an accumulator of already seen values. -/
def uniqueKeepFirstAux : List String → List String → List String
  | _, [] => []
  | seen, x :: xs =>
      if x ∈ seen then uniqueKeepFirstAux seen xs
      else x :: uniqueKeepFirstAux (x :: seen) xs

/-- Embedding of fetch_evac_zones_for_uids_with_fallback: deduplicate the
uids keeping first occurrences, drop falsy (empty) ones, return an empty
result on an empty set, else run the ladder [first_chunk, 100, 50, 25].  The
abstract parameter request models one supabase in-query for one batch. -/
def fetch_evac_zones_for_uids_with_fallback {ρ : Type}
    (request : List String → Except APIError (List ρ)) (uids0 : List String)
    (firstChunk : ℕ) : Except FetchFailure (List ρ) :=
  let uids := (uniqueKeepFirstAux [] uids0).filter (fun u => u ≠ "")
  if uids = [] then .ok []
  else fallbackLoop request uids [firstChunk, 100, 50, 25] none

/-- Fuel-indexed loop of fetch_recent: one fuel unit per iteration of the
python while loop; None models a computation that does not finish within the
given fuel.  The abstract parameter pageFn models one supabase
select-order-range page request, taking the inclusive range bounds. -/
def fetchRecentGo {ρ : Type} (pageFn : ℕ → ℕ → List ρ) (maxRows pageSize : ℕ) :
    ℕ → ℕ → List ρ → Option (List ρ)
  | 0, _, _ => none
  | fuel + 1, start, acc =>
      if start < maxRows then
        let rows := pageFn start (start + pageSize - 1)
        if rows.isEmpty then some acc
        else if rows.length < pageSize then some (acc ++ rows)
        else fetchRecentGo pageFn maxRows pageSize fuel (start + pageSize) (acc ++ rows)
      else some acc

/-- Embedding of fetch_recent: run the paging loop from start 0 with an empty
accumulator.  The fuel maxRows + 1 bounds the iteration count of the python
loop whenever pageSize ≥ 1 (each continuing iteration advances start by
pageSize toward maxRows), so for positive page sizes None is returned exactly
when the python loop would not terminate. -/
def fetch_recent {ρ : Type} (pageFn : ℕ → ℕ → List ρ) (maxRows pageSize : ℕ) :
    Option (List ρ) :=
  fetchRecentGo pageFn maxRows pageSize (maxRows + 1) 0 []

/-- Reference description of the paging loop for positive page sizes, written
as the spec words it: request pages in order until a page comes back empty or
short or the cumulative count reaches the ceiling, then return everything
accumulated.  Total by well-founded recursion on maxRows - start. -/
def collectPages {ρ : Type} (pageFn : ℕ → ℕ → List ρ) (maxRows pageSize : ℕ)
    (hp : 0 < pageSize) (start : ℕ) (acc : List ρ) : List ρ :=
  if _hlt : start < maxRows then
    let rows := pageFn start (start + pageSize - 1)
    if rows.isEmpty then acc
    else if rows.length < pageSize then acc ++ rows
    else collectPages pageFn maxRows pageSize hp (start + pageSize) (acc ++ rows)
  else acc
termination_by maxRows - start
decreasing_by omega

/-! ### RouteResolver fallback (evacuation_planner_page.py lines 672-689) -/

/-- Python round(x, 1) on rationals: half-to-even at one decimal place. -/
def round1 (x : ℚ) : ℚ := (roundHalfEven (x * 10) : ℚ) / 10

/-- Python round(x, 0) on rationals: half-to-even to a whole number. -/
def round0 (x : ℚ) : ℚ := (roundHalfEven x : ℚ)

/-- Result of one osrm_route call, one field per key of the returned dict. -/
structure RouteInfo where
  distance_mi : ℚ
  duration_min : ℚ
  geometry : List Pt
  steps : List String
deriving DecidableEq

/-- Embedding of the drive_dist / drive_eta / walk_dist / walk_eta block of
render_evacuation_planner_page: per profile, use the live OSRM result if
present, else synthesize from the straight-line miles; the drive fallback is
round(s * 1.3, 1) miles and that distance at 45 mph rounded to whole minutes,
the walk fallback is round(s * 1.2, 1) miles and that distance at 3.5 mph
rounded to whole minutes. -/
def routeFigures (car foot : Option RouteInfo) (straight_mi : ℚ) : (ℚ × ℚ) × (ℚ × ℚ) :=
  let drive_dist := match car with
    | some r => r.distance_mi
    | none => round1 (straight_mi * 1.3)
  let drive_eta := match car with
    | some r => r.duration_min
    | none => round0 (drive_dist / 45 * 60)
  let walk_dist := match foot with
    | some r => r.distance_mi
    | none => round1 (straight_mi * 1.2)
  let walk_eta := match foot with
    | some r => r.duration_min
    | none => round0 (walk_dist / 3.5 * 60)
  ((drive_dist, drive_eta), (walk_dist, walk_eta))

/-! ## Claims -/

/-- C1: for the chunked set fetch with adaptive retry, on every non-empty
processed value set the source runs the ladder [first_chunk, 100, 50, 25]
from scratch per size: conjunct 1 reduces the fetch to the ladder loop;
conjunct 2 shows a transient-timeout failure of the attempt at the current
size restarts the whole fetch at the next smaller size, storing the error;
conjunct 3 shows a successful attempt returns its concatenated rows;
conjunct 4 shows a failure that is not the recognised transient-timeout
signal is raised immediately, trying no smaller sizes; conjunct 5 shows an
exhausted ladder raises the last stored error. -/
theorem chunked_fetch_fallback_spec {ρ : Type}
    (request : List String → Except APIError (List ρ)) (uids0 : List String)
    (firstChunk : ℕ) :
    (((uniqueKeepFirstAux [] uids0).filter (fun u => u ≠ "")) ≠ [] →
      fetch_evac_zones_for_uids_with_fallback request uids0 firstChunk =
        fallbackLoop request ((uniqueKeepFirstAux [] uids0).filter (fun u => u ≠ ""))
          [firstChunk, 100, 50, 25] none) ∧
    (∀ (uids : List String) (c : ℕ) (rest : List ℕ) (lastE : Option APIError) (e : APIError),
      attemptFetch request uids c = .error e → isTransientTimeout e = true →
        fallbackLoop request uids (c :: rest) lastE = fallbackLoop request uids rest (some e)) ∧
    (∀ (uids : List String) (c : ℕ) (rest : List ℕ) (lastE : Option APIError) (rows : List ρ),
      attemptFetch request uids c = .ok rows →
        fallbackLoop request uids (c :: rest) lastE = .ok rows) ∧
    (∀ (uids : List String) (c : ℕ) (rest : List ℕ) (lastE : Option APIError) (e : APIError),
      attemptFetch request uids c = .error e → isTransientTimeout e = false →
        fallbackLoop request uids (c :: rest) lastE = .error (.api e)) ∧
    (∀ (uids : List String) (e : APIError),
      fallbackLoop request uids [] (some e) = .error (.api e)) := by
  refine ⟨?_, ?_, ?_, ?_, ?_⟩
  · intro hne
    simp only [fetch_evac_zones_for_uids_with_fallback, if_neg hne]
  · intro uids c rest lastE e hatt htr
    simp only [fallbackLoop, hatt, htr, if_true]
  · intro uids c rest lastE rows hatt
    simp only [fallbackLoop, hatt]
  · intro uids c rest lastE e hatt htr
    simp only [fallbackLoop, hatt, htr, Bool.false_eq_true, if_false]
  · intro uids e
    simp only [fallbackLoop]

/-- Store stub that always times out, used by the C1 witness. -/
def reqTimeout : List String → Except APIError (List ℕ) :=
  fun _ => .error ⟨"canceling statement due to statement timeout"⟩

/-- Store stub that succeeds exactly on batches of at most 25 values,
echoing the batch, used by the C1 witness. -/
def reqSmallOk : List String → Except APIError (List String) :=
  fun part => if part.length ≤ 25 then .ok part else .error ⟨"57014"⟩

/-- Thirty distinct uids, used by the C1 witness. -/
def uids30 : List String :=
  ["u01", "u02", "u03", "u04", "u05", "u06", "u07", "u08", "u09", "u10",
   "u11", "u12", "u13", "u14", "u15", "u16", "u17", "u18", "u19", "u20",
   "u21", "u22", "u23", "u24", "u25", "u26", "u27", "u28", "u29", "u30"]

/-- Witness for C1: with a store that always reports the transient timeout,
the fetch walks the whole ladder and surfaces the last error; with a store
that succeeds only on batches of at most 25 values and 30 uids, the sizes
200, 100 and 50 fail transiently and the size 25 succeeds with the
concatenated rows. -/
theorem chunked_fetch_fallback_spec_witness :
    fetch_evac_zones_for_uids_with_fallback reqTimeout ["a"] 200 =
      .error (.api ⟨"canceling statement due to statement timeout"⟩) ∧
    fetch_evac_zones_for_uids_with_fallback reqSmallOk uids30 200 = .ok uids30 := by
  constructor
  · have h := chunked_fetch_fallback_spec reqTimeout ["a"] 200
    rw [h.1 (by decide)]
    rw [h.2.1 _ 200 _ _ ⟨"canceling statement due to statement timeout"⟩ (by decide) (by decide)]
    rw [h.2.1 _ 100 _ _ ⟨"canceling statement due to statement timeout"⟩ (by decide) (by decide)]
    rw [h.2.1 _ 50 _ _ ⟨"canceling statement due to statement timeout"⟩ (by decide) (by decide)]
    rw [h.2.1 _ 25 _ _ ⟨"canceling statement due to statement timeout"⟩ (by decide) (by decide)]
    exact h.2.2.2.2 _ _
  · have h := chunked_fetch_fallback_spec reqSmallOk uids30 200
    rw [h.1 (by decide)]
    rw [h.2.1 _ 200 _ _ ⟨"57014"⟩ (by decide) (by decide)]
    rw [h.2.1 _ 100 _ _ ⟨"57014"⟩ (by decide) (by decide)]
    rw [h.2.1 _ 50 _ _ ⟨"57014"⟩ (by decide) (by decide)]
    exact h.2.2.1 _ 25 _ _ uids30 (by decide)

/-- Helper for C6: with fuel exceeding maxRows - start, the fuelled paging
loop terminates and computes exactly the reference collectPages value. -/
theorem fetchRecentGo_eq_collectPages {ρ : Type} (pageFn : ℕ → ℕ → List ρ)
    (maxRows pageSize : ℕ) (hp : 0 < pageSize) :
    ∀ (fuel start : ℕ) (acc : List ρ), maxRows - start < fuel →
      fetchRecentGo pageFn maxRows pageSize fuel start acc =
        some (collectPages pageFn maxRows pageSize hp start acc) := by
  intro fuel
  induction fuel with
  | zero => intro start acc h; omega
  | succ n ih =>
    intro start acc h
    rw [fetchRecentGo, collectPages]
    by_cases hlt : start < maxRows
    · simp only [hlt, if_true, dif_pos hlt]
      by_cases he : (pageFn start (start + pageSize - 1)).isEmpty
      · simp [he]
      · simp only [he, if_false, Bool.false_eq_true]
        by_cases hs : (pageFn start (start + pageSize - 1)).length < pageSize
        · simp [hs]
        · simp only [hs, if_false]
          exact ih (start + pageSize) _ (by omega)
    · simp [hlt]

/-- Counterexample for C6: the claim quantifies over every page size, but at
page size 0 the python loop never advances start, so with any store whose
first page is non-empty fetch_recent loops forever; in the fuelled embedding
the loop exhausts its fuel and yields None instead of a result. -/
theorem fetch_recent_page_size_zero_diverges :
    fetch_recent (fun _ _ => [(0 : ℕ)]) 5 0 = none := by decide

/-- C6 (amended to positive page sizes): for every store behaviour and
max-rows ceiling, and every page size of at least 1, fetch_recent terminates
and returns exactly the pages-in-order accumulation described by
collectPages: fixed-size pages requested in order until a page comes back
empty or shorter than the page size or the cumulative count reaches the
ceiling, all accumulated rows returned, no error on end of data. -/
theorem fetch_recent_terminates_eq_collectPages {ρ : Type}
    (pageFn : ℕ → ℕ → List ρ) (maxRows pageSize : ℕ) (hp : 0 < pageSize) :
    fetch_recent pageFn maxRows pageSize =
      some (collectPages pageFn maxRows pageSize hp 0 []) :=
  fetchRecentGo_eq_collectPages pageFn maxRows pageSize hp (maxRows + 1) 0 [] (by omega)

/-- Witness for C6: a concrete store serving single-row pages terminates with
a result under page size 1. -/
theorem fetch_recent_terminates_witness :
    (fetch_recent (fun s _ => if s < 3 then [s] else []) 10 1).isSome = true := by
  rw [fetch_recent_terminates_eq_collectPages (fun s _ => if s < 3 then [s] else []) 10 1
    (by decide)]
  rfl

/-- Counterexample for C7: the source rounds the synthesized distance to one
decimal place (round(straight_mi * 1.3, 1)), so at straight-line distance
1.23 miles the drive fallback is 1.6 miles, not 1.23 × 1.3 = 1.599 miles as
the claim states. -/
theorem route_fallback_exact_multiplier_fails :
    (routeFigures none none 1.23).1.1 ≠ (1.23 : ℚ) * 1.3 := by
  show round1 (1.23 * 1.3) ≠ (1.23 : ℚ) * 1.3
  rw [round1, roundHalfEven]
  norm_num

/-- C7 (amended with the source rounding): when the routing service is
unavailable for the drive profile the synthesized figures are distance
round(s × 1.3, 1) and duration of that rounded distance at 45 mph rounded to
whole minutes; when unavailable for the walk profile, distance
round(s × 1.2, 1) and duration of that rounded distance at 3.5 mph rounded
to whole minutes; both are always present (non-null), and each profile falls
back independently: the other profile argument is arbitrary in each
conjunct. -/
theorem route_fallback_figures (car foot : Option RouteInfo) (s : ℚ) :
    (routeFigures none foot s).1 =
      (round1 (s * 1.3), round0 (round1 (s * 1.3) / 45 * 60)) ∧
    (routeFigures car none s).2 =
      (round1 (s * 1.2), round0 (round1 (s * 1.2) / 3.5 * 60)) := by
  exact ⟨rfl, rfl⟩

/-- Helper: the python float modulus with a positive modulus is nonnegative. -/
theorem fmod_nonneg (a b : ℚ) (hb : 0 < b) : 0 ≤ fmod a b := by
  rw [fmod, sub_nonneg]
  calc b * ⌊a / b⌋ ≤ b * (a / b) :=
        mul_le_mul_of_nonneg_left (Int.floor_le _) hb.le
    _ = a := by field_simp

/-- Helper: the python float modulus with a positive modulus is below it. -/
theorem fmod_lt (a b : ℚ) (hb : 0 < b) : fmod a b < b := by
  rw [fmod, sub_lt_iff_lt_add]
  have h := Int.lt_floor_add_one (a / b)
  calc a = b * (a / b) := by field_simp
    _ < b * (⌊a / b⌋ + 1) := by
        exact mul_lt_mul_of_pos_left h hb
    _ = b + b * ⌊a / b⌋ := by ring

/-- C8: for every bearing function and every threat and subject point, the
returned bearing is the threat → subject bearing plus 180 degrees reduced
modulo 360 (it differs from bearing + 180 by an integer multiple of 360 and
lies in [0, 360)); the returned label is the compass label indexed by
round(bearing / 45) mod 8 over the eight labels North … Northwest; and the
round used is round half to even, so an exact tie midway between two index
values resolves to the even index. -/
theorem evacuation_direction_spec (B : Pt → Pt → ℚ) (fire subj : Pt) :
    (∃ k : ℤ, (get_evacuation_direction B fire subj).2 = B fire subj + 180 - 360 * k) ∧
    0 ≤ (get_evacuation_direction B fire subj).2 ∧
    (get_evacuation_direction B fire subj).2 < 360 ∧
    (get_evacuation_direction B fire subj).1 =
      compassDirections.getD
        ((roundHalfEven ((get_evacuation_direction B fire subj).2 / 45) % 8).toNat) "" ∧
    (∀ m : ℤ, roundHalfEven ((m : ℚ) + 1/2) = if Even m then m else m + 1) := by
  refine ⟨⟨⌊(B fire subj + 180) / 360⌋, ?_⟩, ?_, ?_, rfl, ?_⟩
  · show fmod (B fire subj + 180) 360 = _
    rw [fmod]
  · exact fmod_nonneg _ _ (by norm_num)
  · exact fmod_lt _ _ (by norm_num)
  · intro m
    have hf : ⌊(m : ℚ) + 1/2⌋ = m := by
      rw [Int.floor_int_add]
      norm_num
    rw [roundHalfEven, hf]
    have h2 : (m : ℚ) + 1/2 - (m : ℤ) = 1/2 := by ring
    rw [h2]
    simp

/-- Helper: the inner vertex scan of find_nearest_highway either leaves the
accumulator unchanged or returns some scanned vertex of the given highway,
never increases the best distance, and ends at most the distance of every
scanned vertex. -/
theorem hwyScan_pts (D : Pt → Pt → ℚ) (origin : Pt) (nm : String) :
    ∀ (pts : List Pt) (acc : Option String × WithTop ℚ × Option Pt),
      (pts.foldl (fun a pt => hwyBest D origin a nm pt) acc = acc ∨
        ∃ pt ∈ pts, pts.foldl (fun a pt => hwyBest D origin a nm pt) acc =
          (some nm, (D origin pt : WithTop ℚ), some pt)) ∧
      (pts.foldl (fun a pt => hwyBest D origin a nm pt) acc).2.1 ≤ acc.2.1 ∧
      (∀ pt ∈ pts, (pts.foldl (fun a pt => hwyBest D origin a nm pt) acc).2.1 ≤
        (D origin pt : WithTop ℚ)) := by
  intro pts
  induction pts with
  | nil => exact fun acc => ⟨Or.inl rfl, le_refl _, by simp⟩
  | cons p ps ih =>
    intro acc
    simp only [List.foldl_cons]
    obtain ⟨hmem, hle, hall⟩ := ih (hwyBest D origin acc nm p)
    by_cases hlt : (D origin p : WithTop ℚ) < acc.2.1
    · have hstep : hwyBest D origin acc nm p = (some nm, (D origin p : WithTop ℚ), some p) := by
        rw [hwyBest, if_pos hlt]
      refine ⟨?_, ?_, ?_⟩
      · rcases hmem with h | ⟨pt, hpt, h⟩
        · exact Or.inr ⟨p, List.mem_cons_self _ _, by rw [h, hstep]⟩
        · exact Or.inr ⟨pt, List.mem_cons_of_mem _ hpt, h⟩
      · calc (ps.foldl (fun a pt => hwyBest D origin a nm pt) (hwyBest D origin acc nm p)).2.1
            ≤ (hwyBest D origin acc nm p).2.1 := hle
          _ ≤ acc.2.1 := by rw [hstep]; exact le_of_lt hlt
      · intro pt hpt
        rcases List.mem_cons.mp hpt with rfl | hpt
        · calc (ps.foldl (fun a pt => hwyBest D origin a nm pt) (hwyBest D origin acc nm pt)).2.1
              ≤ (hwyBest D origin acc nm pt).2.1 := hle
            _ = (D origin pt : WithTop ℚ) := by rw [hstep]
        · exact hall pt hpt
    · have hstep : hwyBest D origin acc nm p = acc := by
        rw [hwyBest, if_neg hlt]
      rw [hstep] at hmem hle hall
      rw [hstep]
      refine ⟨?_, hle, ?_⟩
      · rcases hmem with h | ⟨pt, hpt, h⟩
        · exact Or.inl h
        · exact Or.inr ⟨pt, List.mem_cons_of_mem _ hpt, h⟩
      · intro pt hpt
        rcases List.mem_cons.mp hpt with rfl | hpt
        · exact le_trans hle (not_lt.mp hlt)
        · exact hall pt hpt

/-- Helper: the outer highway scan of find_nearest_highway either leaves the
accumulator unchanged or returns a scanned vertex of a non-skipped highway,
never increases the best distance, and ends at most the distance of every
vertex of every non-skipped highway. -/
theorem hwyScan_hwys (D : Pt → Pt → ℚ) (origin : Pt) (state : Option String) :
    ∀ (hwys : List Highway) (acc : Option String × WithTop ℚ × Option Pt),
      (hwys.foldl (fun a hwy =>
          if stateSkips state hwy.states then a
          else hwy.coords.foldl (fun a2 pt => hwyBest D origin a2 hwy.name pt) a) acc = acc ∨
        ∃ hwy ∈ hwys, stateSkips state hwy.states = false ∧
          ∃ pt ∈ hwy.coords, hwys.foldl (fun a hwy =>
            if stateSkips state hwy.states then a
            else hwy.coords.foldl (fun a2 pt => hwyBest D origin a2 hwy.name pt) a) acc =
              (some hwy.name, (D origin pt : WithTop ℚ), some pt)) ∧
      (hwys.foldl (fun a hwy =>
          if stateSkips state hwy.states then a
          else hwy.coords.foldl (fun a2 pt => hwyBest D origin a2 hwy.name pt) a) acc).2.1 ≤
        acc.2.1 ∧
      (∀ hwy ∈ hwys, stateSkips state hwy.states = false → ∀ pt ∈ hwy.coords,
        (hwys.foldl (fun a hwy =>
          if stateSkips state hwy.states then a
          else hwy.coords.foldl (fun a2 pt => hwyBest D origin a2 hwy.name pt) a) acc).2.1 ≤
          (D origin pt : WithTop ℚ)) := by
  intro hwys
  induction hwys with
  | nil => exact fun acc => ⟨Or.inl rfl, le_refl _, by simp⟩
  | cons h hs ih =>
    intro acc
    simp only [List.foldl_cons]
    by_cases hskip : stateSkips state h.states
    · simp only [hskip, if_true]
      obtain ⟨hmem, hle, hall⟩ := ih acc
      refine ⟨?_, hle, ?_⟩
      · rcases hmem with h1 | ⟨hwy, hhwy, hsk, pt, hpt, h1⟩
        · exact Or.inl h1
        · exact Or.inr ⟨hwy, List.mem_cons_of_mem _ hhwy, hsk, pt, hpt, h1⟩
      · intro hwy hhwy hsk pt hpt
        rcases List.mem_cons.mp hhwy with rfl | hhwy
        · rw [hskip] at hsk; cases hsk
        · exact hall hwy hhwy hsk pt hpt
    · have hsk0 : stateSkips state h.states = false := by
        simpa using hskip
      simp only [hsk0, Bool.false_eq_true, if_false]
      set acc1 := h.coords.foldl (fun a2 pt => hwyBest D origin a2 h.name pt) acc with hacc1
      obtain ⟨pmem, ple, pall⟩ := hwyScan_pts D origin h.name h.coords acc
      obtain ⟨hmem, hle, hall⟩ := ih acc1
      refine ⟨?_, le_trans hle ple, ?_⟩
      · rcases hmem with h1 | ⟨hwy, hhwy, hsk, pt, hpt, h1⟩
        · rcases pmem with h2 | ⟨pt, hpt, h2⟩
          · exact Or.inl (by rw [h1, hacc1]; exact h2)
          · exact Or.inr ⟨h, List.mem_cons_self _ _, hsk0, pt, hpt, by rw [h1, hacc1]; exact h2⟩
        · exact Or.inr ⟨hwy, List.mem_cons_of_mem _ hhwy, hsk, pt, hpt, h1⟩
      · intro hwy hhwy hsk pt hpt
        rcases List.mem_cons.mp hhwy with rfl | hhwy
        · exact le_trans hle (pall pt hpt)
        · exact hall hwy hhwy hsk pt hpt

/-- Helper: when the state filter skips every highway of the registry, the
scan never leaves its initial accumulator (None, inf, None). -/
theorem find_nearest_highway_all_skipped (D : Pt → Pt → ℚ) (origin : Pt)
    (state : Option String) :
    ∀ hwys : List Highway, (∀ hwy ∈ hwys, stateSkips state hwy.states = true) →
      find_nearest_highway D hwys origin state = (none, (⊤ : WithTop ℚ), none) := by
  intro hwys
  induction hwys with
  | nil => intro _; rfl
  | cons h hs ih =>
    intro hall
    rw [find_nearest_highway, List.foldl_cons, hall h (List.mem_cons_self _ _)]
    exact ih (fun hwy hm => hall hwy (List.mem_cons_of_mem _ hm))

/-- C5: for every metric, registry, origin and given (non-empty) state
filter: a returned highway is one whose state-set contains the filter, and
the returned point is a vertex of its path samples whose distance is the
returned distance; if no highway of the registry lists the filter state the
result is the not-found triple (None, inf, None) with no fallback to an
unfiltered search; and the returned distance is at most the distance of
every path vertex of every highway passing the filter, so the candidate is
the closest sampled vertex, not a polyline projection. -/
theorem find_nearest_highway_spec (D : Pt → Pt → ℚ) (hwys : List Highway)
    (origin : Pt) (s : String) (hs : s ≠ "") :
    (∀ nm, (find_nearest_highway D hwys origin (some s)).1 = some nm →
      ∃ hwy ∈ hwys, s ∈ hwy.states ∧ nm = hwy.name ∧
        ∃ pt ∈ hwy.coords, find_nearest_highway D hwys origin (some s) =
          (some nm, (D origin pt : WithTop ℚ), some pt)) ∧
    ((∀ hwy ∈ hwys, s ∉ hwy.states) →
      find_nearest_highway D hwys origin (some s) = (none, (⊤ : WithTop ℚ), none)) ∧
    (∀ hwy ∈ hwys, s ∈ hwy.states → ∀ pt ∈ hwy.coords,
      (find_nearest_highway D hwys origin (some s)).2.1 ≤ (D origin pt : WithTop ℚ)) := by
  have hskip_iff : ∀ states : List String,
      stateSkips (some s) states = false ↔ s ∈ states := by
    intro states
    rw [stateSkips]
    constructor
    · intro h
      by_cases hm : s ∈ states
      · exact hm
      · rw [if_neg hs, if_neg hm] at h; cases h
    · intro hm
      rw [if_neg hs, if_pos hm]
  obtain ⟨hmem, _, hall⟩ := hwyScan_hwys D origin (some s) hwys (none, (⊤ : WithTop ℚ), none)
  refine ⟨?_, ?_, ?_⟩
  · intro nm hnm
    rcases hmem with h1 | ⟨hwy, hhwy, hsk, pt, hpt, h1⟩
    · rw [find_nearest_highway] at hnm
      rw [h1] at hnm
      cases hnm
    · rw [find_nearest_highway] at hnm ⊢
      rw [h1] at hnm ⊢
      cases hnm
      exact ⟨hwy, hhwy, (hskip_iff hwy.states).mp hsk, rfl, pt, hpt, rfl⟩
  · intro hnone
    apply find_nearest_highway_all_skipped
    intro hwy hm
    have : ¬ stateSkips (some s) hwy.states = false := by
      rw [hskip_iff hwy.states]
      exact hnone hwy hm
    simpa using this
  · intro hwy hhwy hmem2 pt hpt
    rw [find_nearest_highway]
    exact hall hwy hhwy ((hskip_iff hwy.states).mpr hmem2) pt hpt

/-- Witness for C5: the constant-zero metric on the transcribed registry with
the filter state ZZ, which no highway lists, gives the not-found triple. -/
theorem find_nearest_highway_spec_witness :
    ("ZZ" : String) ≠ "" ∧
    find_nearest_highway (fun _ _ => (0 : ℚ)) MAJOR_HIGHWAYS (0, 0) (some "ZZ") =
      (none, (⊤ : WithTop ℚ), none) := by
  refine ⟨by decide, ?_⟩
  exact (find_nearest_highway_spec (fun _ _ => (0 : ℚ)) MAJOR_HIGHWAYS (0, 0) "ZZ"
    (by decide)).2.1 (by decide)

/-- C9: for every metric and bearing function, origin and threat, and every
given (non-empty) state filter that no highway of the transcribed registry
lists, find_nearest_highway returns the triple (None, inf, None) — the
not-found distance is the infinity element, not None and not zero — and the
evacuation plan built on it reports the highway name No major highway nearby
and both highway-distance fields as None. -/
theorem highway_not_found_plan (D B : Pt → Pt → ℚ) (vuln fire : Pt)
    (fireName : String) (s : String) (hs : s ≠ "")
    (hnone : ∀ hwy ∈ MAJOR_HIGHWAYS, s ∉ hwy.states) :
    find_nearest_highway D MAJOR_HIGHWAYS vuln (some s) =
      (none, (⊤ : WithTop ℚ), none) ∧
    (calculate_evacuation_plan D B vuln fire fireName (some s)).nearest_highway =
      "No major highway nearby" ∧
    (calculate_evacuation_plan D B vuln fire fireName (some s)).highway_distance_km = none ∧
    (calculate_evacuation_plan D B vuln fire fireName (some s)).highway_distance_mi = none := by
  have hfnh : find_nearest_highway D MAJOR_HIGHWAYS vuln (some s) =
      (none, (⊤ : WithTop ℚ), none) := by
    apply find_nearest_highway_all_skipped
    intro hwy hm
    rw [stateSkips, if_neg hs, if_neg (hnone hwy hm)]
  refine ⟨hfnh, ?_, ?_, ?_⟩ <;>
    simp [calculate_evacuation_plan, hfnh, pyTruthyStr]

/-- Witness for C9: with the constant-zero metric and bearing and the filter
state ZZ (listed by no highway), the plan fields take the not-found values. -/
theorem highway_not_found_plan_witness :
    (calculate_evacuation_plan (fun _ _ => (0 : ℚ)) (fun _ _ => (0 : ℚ)) (0, 0) (1, 1)
      "Test Fire" (some "ZZ")).nearest_highway = "No major highway nearby" ∧
    (calculate_evacuation_plan (fun _ _ => (0 : ℚ)) (fun _ _ => (0 : ℚ)) (0, 0) (1, 1)
      "Test Fire" (some "ZZ")).highway_distance_km = none := by
  have h := highway_not_found_plan (fun _ _ => (0 : ℚ)) (fun _ _ => (0 : ℚ)) (0, 0) (1, 1)
    "Test Fire" "ZZ" (by decide) (by decide)
  exact ⟨h.2.1, h.2.2.1⟩

/-- Helper: ordered insertion of an element with sort key q preserves the
filter at key q up to consing the element in front: the elements it jumps
over all have strictly smaller keys. -/
theorem filter_orderedInsert_of_key (q : ℚ) (x : String × ℚ × Pt) (hx : x.2.1 = q) :
    ∀ l : List (String × ℚ × Pt),
      (List.orderedInsert distLe x l).filter (fun e => decide (e.2.1 = q)) =
        x :: l.filter (fun e => decide (e.2.1 = q)) := by
  intro l
  induction l with
  | nil => simp [List.orderedInsert, hx]
  | cons y ys ih =>
    rw [List.orderedInsert]
    by_cases hle : distLe x y
    · rw [if_pos hle]
      simp [hx]
    · rw [if_neg hle]
      have hy : ¬ (y.2.1 = q) := by
        rw [distLe] at hle
        intro h
        exact hle (by rw [hx, ← h])
      rw [List.filter_cons, List.filter_cons]
      simp only [hy, decide_eq_true_eq, if_false, decide_eq_false_iff_not.mpr hy]
      exact ih

/-- Helper: ordered insertion of an element whose sort key is not q leaves
the filter at key q unchanged. -/
theorem filter_orderedInsert_of_ne (q : ℚ) (x : String × ℚ × Pt) (hx : ¬ (x.2.1 = q)) :
    ∀ l : List (String × ℚ × Pt),
      (List.orderedInsert distLe x l).filter (fun e => decide (e.2.1 = q)) =
        l.filter (fun e => decide (e.2.1 = q)) := by
  intro l
  induction l with
  | nil => simp [List.orderedInsert, hx]
  | cons y ys ih =>
    rw [List.orderedInsert]
    by_cases hle : distLe x y
    · rw [if_pos hle]
      simp [hx]
    · rw [if_neg hle]
      rw [List.filter_cons, List.filter_cons, ih]

/-- Helper: stability of the sort used to model python list.sort, stated as
filter invariance: sorting preserves, for every key value q, the subsequence
of elements whose key is q, hence preserves the relative (registry) order of
equal-distance entries. -/
theorem filter_insertionSort_key (q : ℚ) :
    ∀ l : List (String × ℚ × Pt),
      (List.insertionSort distLe l).filter (fun e => decide (e.2.1 = q)) =
        l.filter (fun e => decide (e.2.1 = q)) := by
  intro l
  induction l with
  | nil => rfl
  | cons x xs ih =>
    rw [List.insertionSort]
    by_cases hx : x.2.1 = q
    · rw [filter_orderedInsert_of_key q x hx, ih, List.filter_cons]
      simp [hx]
    · rw [filter_orderedInsert_of_ne q x hx, ih, List.filter_cons]
      simp [hx]

/-- C3: for every metric, origin, exclusion radius and topN, the safe-zone
nearest search returns only registry zones at distance at least the radius
(with the recorded distance really being the distance of the recorded
point); the result is sorted by non-decreasing distance; it equals the
stable ascending sort of the registry-ordered candidate list truncated to
topN, and the sort preserves, for every distance value, the registry-ordered
subsequence of entries at that distance, which is exactly the tie-break by
insertion order (never by name); the length never exceeds topN; when at most
topN zones qualify the result is a permutation of exactly the qualifying
candidates; and an empty candidate list gives the empty, non-error result. -/
theorem find_nearest_safe_zone_spec (D : Pt → Pt → ℚ) (origin : Pt) (radius : ℚ)
    (topN : ℕ) :
    (∀ e ∈ find_nearest_safe_zone D origin radius topN,
      radius ≤ e.2.1 ∧ e.2.1 = D origin e.2.2 ∧ (e.1, e.2.2) ∈ SAFE_ZONES) ∧
    List.Sorted distLe (find_nearest_safe_zone D origin radius topN) ∧
    find_nearest_safe_zone D origin radius topN =
      (List.insertionSort distLe (zoneCandidates D SAFE_ZONES origin radius)).take topN ∧
    (∀ q : ℚ,
      (List.insertionSort distLe (zoneCandidates D SAFE_ZONES origin radius)).filter
          (fun e => decide (e.2.1 = q)) =
        (zoneCandidates D SAFE_ZONES origin radius).filter (fun e => decide (e.2.1 = q))) ∧
    (find_nearest_safe_zone D origin radius topN).length ≤ topN ∧
    ((zoneCandidates D SAFE_ZONES origin radius).length ≤ topN →
      (find_nearest_safe_zone D origin radius topN).Perm
        (zoneCandidates D SAFE_ZONES origin radius)) ∧
    (zoneCandidates D SAFE_ZONES origin radius = [] →
      find_nearest_safe_zone D origin radius topN = []) := by
  refine ⟨?_, ?_, rfl, ?_, ?_, ?_, ?_⟩
  · intro e he
    have he1 : e ∈ List.insertionSort distLe (zoneCandidates D SAFE_ZONES origin radius) :=
      List.take_subset _ _ he
    have he2 : e ∈ zoneCandidates D SAFE_ZONES origin radius :=
      (List.mem_insertionSort distLe).mp he1
    rw [zoneCandidates] at he2
    obtain ⟨z, hz, hfz⟩ := List.mem_filterMap.mp he2
    by_cases hc : radius ≤ D origin z.2
    · rw [if_pos hc] at hfz
      cases hfz
      exact ⟨hc, rfl, hz⟩
    · rw [if_neg hc] at hfz
      cases hfz
  · exact List.Pairwise.sublist (List.take_sublist _ _)
      (List.sorted_insertionSort distLe _)
  · exact fun q => filter_insertionSort_key q _
  · exact List.length_take_le _ _
  · intro hlen
    rw [find_nearest_safe_zone, nearestZones, List.take_of_length_le]
    · exact List.perm_insertionSort distLe _
    · rw [List.length_insertionSort]
      exact hlen
  · intro hnil
    rw [find_nearest_safe_zone, nearestZones, hnil]
    simp

/-- Witness for C3: under the constant-zero metric with exclusion radius 1
no zone qualifies, and the search returns the empty result. -/
theorem find_nearest_safe_zone_spec_witness :
    zoneCandidates (fun _ _ => (0 : ℚ)) SAFE_ZONES (0, 0) 1 = [] ∧
    find_nearest_safe_zone (fun _ _ => (0 : ℚ)) (0, 0) 1 5 = [] := by
  have hc : zoneCandidates (fun _ _ => (0 : ℚ)) SAFE_ZONES (0, 0) 1 = [] := by decide
  exact ⟨hc, (find_nearest_safe_zone_spec (fun _ _ => (0 : ℚ)) (0, 0) 1 5).2.2.2.2.2.2 hc⟩

/-- Helper: lookup after a python-style dict append: the target key gets the
old list (empty when the key was absent) with the value appended; every
other key is untouched. -/
theorem alGet_dictAppend {β : Type} (m : List (String × List β)) (k : String) (v : β)
    (k' : String) :
    alGet (dictAppend m k v) k' =
      if k' = k then some ((alGet m k).getD [] ++ [v]) else alGet m k' := by
  induction m with
  | nil =>
    by_cases h : k' = k
    · subst h
      simp [dictAppend, alGet]
    · have h2 : ¬ k = k' := fun hh => h hh.symm
      simp [dictAppend, alGet, h, h2]
  | cons kv rest ih =>
    by_cases h1 : kv.1 = k
    · by_cases h2 : k' = k
      · subst h2
        simp [dictAppend, alGet, h1]
      · have h3 : ¬ kv.1 = k' := by rw [h1]; exact fun hh => h2 hh.symm
        have h4 : ¬ k = k' := fun hh => h2 hh.symm
        simp [dictAppend, alGet, h1, h2, h3, h4]
    · by_cases h3 : kv.1 = k'
      · have h2 : ¬ k' = k := by rw [← h3]; exact h1
        simp [dictAppend, alGet, h1, h2, h3]
      · simp [dictAppend, alGet, h1, h3, ih]

/-- Helper: after filing all live records, a key holds its old content plus
the live records of that category in order; a key absent before stays absent
exactly when no live record maps to it. -/
theorem alGet_liveFold (live : List ShelterRec) :
    ∀ (m : List (String × List ShelterRec)) (k : String),
      alGet (live.foldl (fun m s => dictAppend m (catOf s) s) m) k =
        if alGet m k = none ∧ live.filter (fun s => decide (catOf s = k)) = [] then none
        else some ((alGet m k).getD [] ++ live.filter (fun s => decide (catOf s = k))) := by
  induction live with
  | nil =>
    intro m k
    simp only [List.foldl_nil, List.filter_nil, List.append_nil, and_true]
    cases hm : alGet m k with
    | none => simp
    | some vs => simp
  | cons s rest ih =>
    intro m k
    by_cases hc : catOf s = k
    · have hd : alGet (dictAppend m (catOf s) s) k = some ((alGet m k).getD [] ++ [s]) := by
        rw [alGet_dictAppend, if_pos hc.symm, hc]
      rw [List.foldl_cons, ih, hd, List.filter_cons]
      simp [hc]
    · have hd : alGet (dictAppend m (catOf s) s) k = alGet m k := by
        rw [alGet_dictAppend, if_neg (fun hh => hc hh.symm)]
      rw [List.foldl_cons, ih, hd, List.filter_cons]
      simp [hc]

/-- Helper: injecting the curated entries of one category appends their
converted records at that key and touches no other key. -/
theorem alGet_injectCat (cat : String) (dLat dLon : ℚ) (statics : List StaticEntry) :
    ∀ (m : List (String × List ShelterRec)) (k : String),
      alGet (statics.foldl
          (fun m2 e => dictAppend m2 cat (staticToRec cat dLat dLon e)) m) k =
        if k = cat then
          (if alGet m k = none ∧ statics = [] then none
           else some ((alGet m k).getD [] ++ statics.map (staticToRec cat dLat dLon)))
        else alGet m k := by
  induction statics with
  | nil =>
    intro m k
    simp only [List.foldl_nil, List.map_nil, List.append_nil, and_true]
    by_cases hk : k = cat
    · subst hk
      cases hm : alGet m k with
      | none => simp
      | some vs => simp
    · rw [if_neg hk]
  | cons e es ih =>
    intro m k
    by_cases hk : k = cat
    · have hd : alGet (dictAppend m cat (staticToRec cat dLat dLon e)) k =
          some ((alGet m k).getD [] ++ [staticToRec cat dLat dLon e]) := by
        rw [alGet_dictAppend, if_pos hk, hk]
      rw [List.foldl_cons, ih, hd, if_pos hk, if_pos hk]
      simp
    · have hd : alGet (dictAppend m cat (staticToRec cat dLat dLon e)) k = alGet m k := by
        rw [alGet_dictAppend, if_neg hk]
      rw [List.foldl_cons, ih, hd, if_neg hk, if_neg hk]

/-- Helper: a key outside the key column of an association list looks up to
none. -/
theorem alGet_eq_none_of_not_mem {β : Type} :
    ∀ (tbl : List (String × β)) (k : String), k ∉ tbl.map Prod.fst → alGet tbl k = none := by
  intro tbl
  induction tbl with
  | nil => intro k _; rfl
  | cons kv rest ih =>
    intro k hk
    rw [List.map_cons, List.mem_cons] at hk
    push_neg at hk
    rw [alGet, if_neg (fun hh => hk.1 hh.symm)]
    exact ih k hk.2

/-- Helper: the curated-fallback pass leaves every key outside the curated
table untouched. -/
theorem alGet_injectFold_not_mem (dLat dLon : ℚ) :
    ∀ (tbl : List (String × List StaticEntry)) (m : List (String × List ShelterRec))
      (k : String), alGet tbl k = none →
      alGet (tbl.foldl (fun m p =>
          if (alGet m p.1).getD [] = [] then
            p.2.foldl (fun m2 e => dictAppend m2 p.1 (staticToRec p.1 dLat dLon e)) m
          else m) m) k = alGet m k := by
  intro tbl
  induction tbl with
  | nil => intro m k _; rfl
  | cons p rest ih =>
    intro m k hnone
    by_cases hpk : p.1 = k
    · rw [alGet, if_pos hpk] at hnone
      cases hnone
    · rw [alGet, if_neg hpk] at hnone
      rw [List.foldl_cons, ih _ k hnone]
      by_cases hcond : (alGet m p.1).getD [] = []
      · rw [if_pos hcond, alGet_injectCat p.1 dLat dLon p.2 m k,
          if_neg (fun hh => hpk hh.symm)]
      · rw [if_neg hcond]

/-- Helper: the curated-fallback pass over a table with distinct keys and
non-empty entry lists: a key of the table whose current list is falsy
receives exactly the converted entries of the table; a key whose list is
non-empty is untouched. -/
theorem alGet_injectFold_mem (dLat dLon : ℚ) :
    ∀ (tbl : List (String × List StaticEntry)) (m : List (String × List ShelterRec))
      (k : String) (ss : List StaticEntry),
      (tbl.map Prod.fst).Nodup →
      (∀ p ∈ tbl, p.2 ≠ []) →
      alGet tbl k = some ss →
      alGet (tbl.foldl (fun m p =>
          if (alGet m p.1).getD [] = [] then
            p.2.foldl (fun m2 e => dictAppend m2 p.1 (staticToRec p.1 dLat dLon e)) m
          else m) m) k =
        (if (alGet m k).getD [] = [] then some (ss.map (staticToRec k dLat dLon))
         else alGet m k) := by
  intro tbl
  induction tbl with
  | nil => intro m k ss _ _ hss; cases hss
  | cons p rest ih =>
    intro m k ss hnd hne hss
    rw [List.map_cons, List.nodup_cons] at hnd
    rw [List.foldl_cons]
    by_cases hpk : p.1 = k
    · rw [alGet, if_pos hpk] at hss
      injection hss with hss2
      subst hss2
      have hrest : alGet rest k = none := by
        apply alGet_eq_none_of_not_mem
        rw [← hpk]
        exact hnd.1
      rw [alGet_injectFold_not_mem dLat dLon rest _ k hrest]
      by_cases hcond : (alGet m p.1).getD [] = []
      · have hcondk : (alGet m k).getD [] = [] := by rw [← hpk]; exact hcond
        rw [if_pos hcond, if_pos hcondk,
          alGet_injectCat p.1 dLat dLon p.2 m k, if_pos hpk.symm,
          if_neg (fun hh => hne p (List.mem_cons_self _ _) hh.2), hcondk,
          List.nil_append, hpk]
      · have hcondk : ¬ (alGet m k).getD [] = [] := by rw [← hpk]; exact hcond
        rw [if_neg hcond, if_neg hcondk]
    · rw [alGet, if_neg hpk] at hss
      have hstep : alGet (if (alGet m p.1).getD [] = [] then
          p.2.foldl (fun m2 e => dictAppend m2 p.1 (staticToRec p.1 dLat dLon e)) m
        else m) k = alGet m k := by
        by_cases hcond : (alGet m p.1).getD [] = []
        · rw [if_pos hcond, alGet_injectCat p.1 dLat dLon p.2 m k,
            if_neg (fun hh => hpk hh.symm)]
        · rw [if_neg hcond]
      rw [ih _ k ss hnd.2 (fun q hq => hne q (List.mem_cons_of_mem _ hq)) hss, hstep]

/-- Helper: lookup into the category initialisation of _merge_shelters. -/
theorem alGet_init (cats : List String) (k : String) :
    alGet (cats.map (fun c => (c, ([] : List ShelterRec)))) k =
      if k ∈ cats then some [] else none := by
  induction cats with
  | nil => simp [alGet]
  | cons c cs ih =>
    by_cases hc : c = k
    · subst hc
      simp [alGet]
    · have hc2 : ¬ k = c := fun hh => hc hh.symm
      simp [alGet, hc, hc2, ih]

/-- Helper: the live-filing phase starting from the category initialisation:
a key holds exactly the live records of its category; it is present iff it is
a known category or some live record maps to it. -/
theorem alGet_base (live : List ShelterRec) (k : String) :
    alGet (live.foldl (fun m s => dictAppend m (catOf s) s)
        (SHELTER_CATEGORIES.map (fun c => (c, ([] : List ShelterRec))))) k =
      if k ∈ SHELTER_CATEGORIES ∨ live.filter (fun s => decide (catOf s = k)) ≠ []
      then some (live.filter (fun s => decide (catOf s = k)))
      else none := by
  rw [alGet_liveFold, alGet_init]
  by_cases hk : k ∈ SHELTER_CATEGORIES
  · simp [hk]
  · by_cases hf : live.filter (fun s => decide (catOf s = k)) = []
    · simp [hk, hf]
    · simp [hk, hf]

/-- Helper: the merge unfolded to its two passes. -/
theorem mergeShelters_def (live : List ShelterRec) (dLat dLon : ℚ) :
    mergeShelters live dLat dLon =
      STATIC_SHELTER_DB.foldl (fun m p =>
        if (alGet m p.1).getD [] = [] then
          p.2.foldl (fun m2 e => dictAppend m2 p.1 (staticToRec p.1 dLat dLon e)) m
        else m)
        (live.foldl (fun m s => dictAppend m (catOf s) s)
          (SHELTER_CATEGORIES.map (fun c => (c, ([] : List ShelterRec))))) := rfl

/-- Helper: full characterisation of the merged dict at a key of the curated
table: the curated entries, converted and anchored at the destination, when
no live record has that category; exactly the live records of that category
otherwise. -/
theorem mergeShelters_alGet_static (live : List ShelterRec) (dLat dLon : ℚ)
    (k : String) (ss : List StaticEntry) (hss : alGet STATIC_SHELTER_DB k = some ss) :
    alGet (mergeShelters live dLat dLon) k =
      if live.filter (fun s => decide (catOf s = k)) = []
      then some (ss.map (staticToRec k dLat dLon))
      else some (live.filter (fun s => decide (catOf s = k))) := by
  rw [mergeShelters_def,
    alGet_injectFold_mem dLat dLon STATIC_SHELTER_DB _ k ss (by decide) (by decide) hss,
    alGet_base]
  by_cases hf : live.filter (fun s => decide (catOf s = k)) = []
  · have hXgetD : ((if k ∈ SHELTER_CATEGORIES ∨
        live.filter (fun s => decide (catOf s = k)) ≠ []
        then some (live.filter (fun s => decide (catOf s = k)))
        else none).getD []) = [] := by
      split
      · simp [hf]
      · rfl
    rw [if_pos hXgetD, if_pos hf]
  · have hX : (if k ∈ SHELTER_CATEGORIES ∨
        live.filter (fun s => decide (catOf s = k)) ≠ []
        then some (live.filter (fun s => decide (catOf s = k)))
        else none) = some (live.filter (fun s => decide (catOf s = k))) :=
      if_pos (Or.inr hf)
    rw [hX, if_neg (by simp [hf]), if_neg hf]

/-- Helper: full characterisation of the merged dict at a key outside the
curated table: exactly the live records of that category, present iff it is
a known category or some live record has it. -/
theorem mergeShelters_alGet_nonstatic (live : List ShelterRec) (dLat dLon : ℚ)
    (k : String) (hnone : alGet STATIC_SHELTER_DB k = none) :
    alGet (mergeShelters live dLat dLon) k =
      if k ∈ SHELTER_CATEGORIES ∨ live.filter (fun s => decide (catOf s = k)) ≠ []
      then some (live.filter (fun s => decide (catOf s = k)))
      else none := by
  rw [mergeShelters_def, alGet_injectFold_not_mem dLat dLon STATIC_SHELTER_DB _ k hnone,
    alGet_base]

/-- Helper: a looked-up binding is a member of the association list. -/
theorem alGet_mem {β : Type} :
    ∀ (tbl : List (String × β)) (k : String) (v : β),
      alGet tbl k = some v → (k, v) ∈ tbl := by
  intro tbl
  induction tbl with
  | nil => intro k v h; cases h
  | cons kv rest ih =>
    intro k v h
    rw [alGet] at h
    by_cases hk : kv.1 = k
    · rw [if_pos hk] at h
      injection h with h2
      have hkv : (k, v) = kv := by
        rw [← hk, ← h2]
      rw [hkv]
      exact List.mem_cons_self _ _
    · rw [if_neg hk] at h
      exact List.mem_cons_of_mem _ (ih k v h)

/-- Helper: a key of the key column looks up to something. -/
theorem alGet_isSome_of_mem_keys {β : Type} :
    ∀ (tbl : List (String × β)) (k : String),
      k ∈ tbl.map Prod.fst → (alGet tbl k).isSome := by
  intro tbl
  induction tbl with
  | nil => intro k h; cases h
  | cons kv rest ih =>
    intro k h
    rw [List.map_cons, List.mem_cons] at h
    rw [alGet]
    by_cases hk : kv.1 = k
    · rw [if_pos hk]; rfl
    · rw [if_neg hk]
      exact ih k (h.resolve_left (fun hh => hk hh.symm))

/-- Counterexample for C2: with an empty live result list the merged output
maps the fixed category Hospital / Medical to the empty list — the curated
table has no entry for it — so it is not true that every category of the
fixed enumeration gets at least one shelter record. -/
theorem merge_shelters_hospital_unrepresented :
    ¬ (∀ cat ∈ SHELTER_CATEGORIES,
        (alGet (mergeShelters [] 0 0) cat).getD [] ≠ []) := by
  intro h
  have hmem : "Hospital / Medical" ∈ SHELTER_CATEGORIES := by decide
  have h2 := h "Hospital / Medical" hmem
  have hnonstat : alGet STATIC_SHELTER_DB "Hospital / Medical" = none := by decide
  have h3 : alGet (mergeShelters [] (0 : ℚ) (0 : ℚ)) "Hospital / Medical" = some [] := by
    rw [mergeShelters_alGet_nonstatic [] 0 0 "Hospital / Medical" hnonstat,
      if_pos (Or.inl hmem)]
    rfl
  rw [h3] at h2
  exact h2 rfl

/-- C2 (amended): for every live result list and destination, the merged
output contains every category of the fixed enumeration as a key, and every
category that has curated entries — all of them except Hospital / Medical —
holds at least one shelter record regardless of what the live query
returned; the one category with no curated entry, Hospital / Medical, can
map to an empty list. -/
theorem merge_shelters_categories_covered (live : List ShelterRec) (dLat dLon : ℚ) :
    (∀ cat ∈ SHELTER_CATEGORIES, (alGet (mergeShelters live dLat dLon) cat).isSome) ∧
    (∀ cat ∈ STATIC_SHELTER_DB.map Prod.fst,
      (alGet (mergeShelters live dLat dLon) cat).getD [] ≠ []) := by
  constructor
  · intro cat hcat
    cases hss : alGet STATIC_SHELTER_DB cat with
    | some ss =>
      rw [mergeShelters_alGet_static live dLat dLon cat ss hss]
      split <;> rfl
    | none =>
      rw [mergeShelters_alGet_nonstatic live dLat dLon cat hss, if_pos (Or.inl hcat)]
      rfl
  · intro cat hcat
    cases hss : alGet STATIC_SHELTER_DB cat with
    | none =>
      have hsome := alGet_isSome_of_mem_keys STATIC_SHELTER_DB cat hcat
      rw [hss] at hsome
      cases hsome
    | some ss =>
      have hmem := alGet_mem STATIC_SHELTER_DB cat ss hss
      have hall : ∀ p ∈ STATIC_SHELTER_DB, p.2 ≠ [] := by decide
      have hne : ss ≠ [] := hall (cat, ss) hmem
      rw [mergeShelters_alGet_static live dLat dLon cat ss hss]
      by_cases hf : live.filter (fun s => decide (catOf s = cat)) = []
      · rw [if_pos hf]
        simp [hne]
      · rw [if_neg hf]
        simp [hf]

/-- Witness for C2 (amended): with no live records the General category is
present and non-empty (filled from the curated table). -/
theorem merge_shelters_categories_covered_witness :
    (alGet (mergeShelters [] 0 0) "General").isSome = true ∧
    (alGet (mergeShelters [] 0 0) "General").getD [] ≠ [] := by
  constructor
  · exact (merge_shelters_categories_covered [] 0 0).1 "General" (by decide)
  · exact (merge_shelters_categories_covered [] 0 0).2 "General" (by decide)

/-- C4: for every live list, destination and category: when the category has
no live entry, the merged list for it is exactly the curated entries of the
table for that category, in table order, converted with the point anchored
at the destination plus the configured offset (and the conversion really
sets point = destination + offset); when the category has at least one live
entry, the merged list is exactly the live entries of that category, so no
curated entry appears in it. -/
theorem merge_shelters_whole_category_fallback (live : List ShelterRec) (dLat dLon : ℚ)
    (cat : String) :
    (live.filter (fun s => decide (catOf s = cat)) = [] →
      (alGet (mergeShelters live dLat dLon) cat).getD [] =
        ((alGet STATIC_SHELTER_DB cat).getD []).map (staticToRec cat dLat dLon)) ∧
    (live.filter (fun s => decide (catOf s = cat)) ≠ [] →
      alGet (mergeShelters live dLat dLon) cat =
        some (live.filter (fun s => decide (catOf s = cat)))) ∧
    (∀ e : StaticEntry, (staticToRec cat dLat dLon e).lat = dLat + e.latOffset ∧
      (staticToRec cat dLat dLon e).lon = dLon + e.lonOffset) := by
  refine ⟨?_, ?_, fun e => ⟨rfl, rfl⟩⟩
  · intro hf
    cases hss : alGet STATIC_SHELTER_DB cat with
    | some ss =>
      rw [mergeShelters_alGet_static live dLat dLon cat ss hss, if_pos hf]
      rfl
    | none =>
      rw [mergeShelters_alGet_nonstatic live dLat dLon cat hss]
      by_cases hc : cat ∈ SHELTER_CATEGORIES
      · rw [if_pos (Or.inl hc)]
        simp [hf]
      · rw [if_neg (by simp [hc, hf])]
        simp
  · intro hf
    cases hss : alGet STATIC_SHELTER_DB cat with
    | some ss =>
      rw [mergeShelters_alGet_static live dLat dLon cat ss hss, if_neg hf]
    | none =>
      rw [mergeShelters_alGet_nonstatic live dLat dLon cat hss, if_pos (Or.inr hf)]

/-- One live General-category record, used by the C4 witness. -/
def liveGeneral : ShelterRec :=
  { name := "Live Shelter A", lat := 1, lon := 2, category := some "General",
    phone := none, ada := true, note := none, website := none,
    source := some "OpenStreetMap" }

/-- Witness for C4: one live General record suppresses the curated General
entries entirely (the merged General list is exactly the live record), while
the category Hospital / Medical, with no live entry and no curated entry,
merges to the empty list. -/
theorem merge_shelters_whole_category_fallback_witness :
    alGet (mergeShelters [liveGeneral] 0 0) "General" = some [liveGeneral] ∧
    (alGet (mergeShelters [liveGeneral] 0 0) "Hospital / Medical").getD [] = [] := by
  constructor
  · rw [(merge_shelters_whole_category_fallback [liveGeneral] 0 0 "General").2.1 (by decide)]
    decide
  · rw [(merge_shelters_whole_category_fallback [liveGeneral] 0 0
      "Hospital / Medical").1 (by decide)]
    decide

/-- C10: for every live list and destination, the merged mapping contains
all nine fixed categories as keys, each holding exactly its live records, or
the curated fallback when it has none; a live record whose category label is
outside the fixed enumeration is stored under that extra key (which holds
exactly the live records of that label) and does not count toward any fixed
category, so it does not suppress the curated fallback there; and the
tag-to-category table really maps some OSM tags (veterinary, food_bank) to
labels outside the fixed enumeration. -/
theorem merge_shelters_extra_categories (live : List ShelterRec) (dLat dLon : ℚ) :
    (∀ cat ∈ SHELTER_CATEGORIES,
      alGet (mergeShelters live dLat dLon) cat =
        some (if live.filter (fun s => decide (catOf s = cat)) = []
              then ((alGet STATIC_SHELTER_DB cat).getD []).map (staticToRec cat dLat dLon)
              else live.filter (fun s => decide (catOf s = cat)))) ∧
    (∀ s ∈ live, catOf s ∉ SHELTER_CATEGORIES →
      alGet (mergeShelters live dLat dLon) (catOf s) =
        some (live.filter (fun s2 => decide (catOf s2 = catOf s)))) ∧
    resolveCategory "veterinary" "" = "Pet-Friendly (Veterinary)" ∧
    ("Pet-Friendly (Veterinary)" ∉ SHELTER_CATEGORIES) ∧
    resolveCategory "food_bank" "" = "Food / Supply Distribution" ∧
    ("Food / Supply Distribution" ∉ SHELTER_CATEGORIES) := by
  refine ⟨?_, ?_, by decide, by decide, by decide, by decide⟩
  · intro cat hcat
    cases hss : alGet STATIC_SHELTER_DB cat with
    | some ss =>
      rw [mergeShelters_alGet_static live dLat dLon cat ss hss]
      by_cases hf : live.filter (fun s => decide (catOf s = cat)) = []
      · rw [if_pos hf, if_pos hf]
        rfl
      · rw [if_neg hf, if_neg hf]
    | none =>
      rw [mergeShelters_alGet_nonstatic live dLat dLon cat hss, if_pos (Or.inl hcat)]
      by_cases hf : live.filter (fun s => decide (catOf s = cat)) = []
      · rw [if_pos hf, hf]
        rfl
      · rw [if_neg hf]
  · intro s hs hout
    have hkeys : ∀ k ∈ STATIC_SHELTER_DB.map Prod.fst, k ∈ SHELTER_CATEGORIES := by decide
    have hnone : alGet STATIC_SHELTER_DB (catOf s) = none := by
      apply alGet_eq_none_of_not_mem
      intro hmem
      exact hout (hkeys (catOf s) hmem)
    have hf : live.filter (fun s2 => decide (catOf s2 = catOf s)) ≠ [] := by
      apply List.ne_nil_of_mem (a := s)
      exact List.mem_filter.mpr ⟨hs, by simp⟩
    rw [mergeShelters_alGet_nonstatic live dLat dLon (catOf s) hnone, if_pos (Or.inr hf)]

/-- One live record in the non-fixed category Group Home, used by the C10
witness. -/
def liveGroupHome : ShelterRec :=
  { name := "Harbour Group Home", lat := 3, lon := 4, category := some "Group Home",
    phone := none, ada := true, note := none, website := none,
    source := some "OpenStreetMap" }

/-- Witness for C10: a live record labelled Group Home lands under the extra
key Group Home, every fixed category is still a key of the merged dict, and
the fixed General category still receives its curated fallback — the extra
record does not suppress it. -/
theorem merge_shelters_extra_categories_witness :
    alGet (mergeShelters [liveGroupHome] 0 0) "Group Home" = some [liveGroupHome] ∧
    (alGet (mergeShelters [liveGroupHome] 0 0) "General").isSome = true := by
  constructor
  · have h := (merge_shelters_extra_categories [liveGroupHome] 0 0).2.1 liveGroupHome
      (List.mem_cons_self _ _) (by decide)
    rw [show catOf liveGroupHome = "Group Home" from rfl] at h
    rw [h]
    decide
  · rw [(merge_shelters_extra_categories [liveGroupHome] 0 0).1 "General" (by decide)]
    rfl
